import Mathlib

/-!
Verification development for the open-psarc repository.

The development shallowly embeds the program in Lean 4:

* bytes are natural numbers (each value below 256 on real inputs);
  files, archive entries and parse buffers are lists of bytes;
* machine integers are modeled as Nat or Int with explicit two's
  complement reinterpretation where the source casts;
* IEEE-754 values that the SNG binary parser merely copies are kept as
  their little-endian bit patterns (the parser never computes with them);
  the XML emitter, which orders and selects float values, is modeled over
  the rationals, exact for the ordering and selection logic under study;
* the external libraries (OpenSSL EVP ciphers, zlib inflate, liblzma)
  are modeled as oracle parameters collected in the Oracles structure,
  constrained only by the length guarantees their APIs document;
* fallible code returns Except; each C++ throw site has a constructor.
-/

/-- Big-endian value of a byte list (ReadBE16 / ReadBE32 and the b-byte
length/offset accumulation loop of ReadToc all fold bytes this way). -/
def beVal (l : List Nat) : Nat := l.foldl (fun acc b => acc * 256 + b) 0

/-- Little-endian value of a byte list (ReadLE16 / ReadLE32 and the
little-endian reads of the SNG BinaryReader). -/
def leVal (l : List Nat) : Nat := l.foldr (fun b acc => b + 256 * acc) 0

/-- Bytes pos .. pos+n-1 of a list. -/
def bytesAt (file : List Nat) (pos n : Nat) : List Nat := (file.drop pos).take n

/-- Unsigned 32-bit wrap-around subtraction (uint32_t arithmetic). -/
def sub32 (a b : Nat) : Nat := (a + (4294967296 - b % 4294967296)) % 4294967296

/-- Reinterpretation of a uint32_t value as int (static_cast to int). -/
def int32OfUInt32 (n : Nat) : Int :=
  if n < 2147483648 then (n : Int) else (n : Int) - 4294967296

/-- Reinterpretation of a uint16_t value as int16_t. -/
def int16OfUInt16 (n : Nat) : Int :=
  if n < 32768 then (n : Int) else (n : Int) - 65536

/-- Reinterpretation of a byte as int8_t (static_cast to int8_t). -/
def int8OfNat (n : Nat) : Int :=
  if n < 128 then (n : Int) else (n : Int) - 256

/-- Reinterpretation of an int8_t value as uint8_t (static_cast to uint8_t). -/
def uint8OfInt8 (i : Int) : Nat := (i % 256).toNat

/-- Substring test on byte lists (std::string::find != npos). -/
def containsSeq (pat l : List Nat) : Bool := l.tails.any (fun t => pat.isPrefixOf t)

/-- Suffix test on byte lists (std::string::ends_with). -/
def endsWithSeq (pat l : List Nat) : Bool := pat.isSuffixOf l

/-- std::vector::resize semantics on lists: truncate or pad with the
default element. -/
def resizeList (l : List α) (n : Nat) (d : α) : List α :=
  l.take n ++ List.replicate (n - l.length) d

namespace Psarc

/-- Errors raised by PsarcFile (src/src/psarc_file.cpp).  Each constructor
corresponds to one PsarcException throw site of the container reader. -/
inductive PsarcError where
  | unexpectedEof
  | wrongMagic
  | unsupportedVersion (major minor : Nat)
  | invalidTocEntrySize
  | tocTruncatedEntry
  | tocTruncatedLength
  | noEntries
  | invalidEntryIndex
  | chunkIndexOutOfRange
  | readUncompressedBlockFailed
  | readCompressedChunkFailed
  | sngTooShort
  | invalidSngMagic
  | sngSizeReadOutOfBounds
  deriving DecidableEq

/-- PsarcFile::ReadBytes semantics: read exactly n bytes at pos or throw. -/
def readExact (file : List Nat) (pos n : Nat) : Except PsarcError (List Nat) :=
  if file.length < pos + n then .error .unexpectedEof else .ok (bytesAt file pos n)

/-- External-library model: AES-CFB / AES-CTR decryption, the three
inflateInit2 window-bit attempts of DecompressZlib, and the lzma_alone
decoder are oracle functions.  The proof fields record the length
guarantees of the real APIs: EVP CTR decryption yields exactly the input
length, and inflate / lzma never produce more than avail_out bytes. -/
structure Oracles where
  cfb : List Nat → List Nat
  ctr : List Nat → List Nat → List Nat
  inflate : Int → List Nat → Nat → Option (List Nat)
  lzmaDec : List Nat → Nat → Option (List Nat)
  ctr_len : ∀ iv p, (ctr iv p).length = p.length
  inflate_len : ∀ wb d e r, inflate wb d e = some r → r.length ≤ e
  lzmaDec_len : ∀ d e r, lzmaDec d e = some r → r.length ≤ e

/-- PSARC header (PsarcFile::Header, filled by ReadHeader). -/
structure Header where
  magic : Nat
  versionMajor : Nat
  versionMinor : Nat
  compressionMethod : List Nat
  tocLength : Nat
  tocEntrySize : Nat
  numFiles : Nat
  blockSize : Nat
  archiveFlags : Nat
  deriving DecidableEq

/-- PsarcFile::FileEntry.  Names are byte strings; a fresh entry has the
empty name (std::string default construction). -/
structure FileEntry where
  name : List Nat := []
  offset : Nat := 0
  uncompressedSize : Nat := 0
  startChunkIndex : Nat := 0
  deriving DecidableEq

instance : Inhabited FileEntry := ⟨{}⟩

/-- Archive state after Open: parsed header, entries, chunk-length table,
and the underlying file bytes (the open ifstream). -/
structure PsarcState where
  header : Header
  entries : List FileEntry
  zLengths : List Nat
  file : List Nat
  deriving DecidableEq

/-- Magic constant g_psarc_magic. -/
def psarcMagic : Nat := 0x50534152

/-- Magic constant g_sng_magic. -/
def sngMagic : Nat := 0x4A

/-- PsarcFile::ReadHeader: 32 big-endian header bytes, magic checked right
after its read, version checked after the remaining fields. -/
def readHeader (file : List Nat) : Except PsarcError Header := do
  let magicB ← readExact file 0 4
  let magic := beVal magicB
  if magic ≠ psarcMagic then throw .wrongMagic
  let vmajB ← readExact file 4 2
  let vminB ← readExact file 6 2
  let compB ← readExact file 8 4
  let tocLenB ← readExact file 12 4
  let tocEntB ← readExact file 16 4
  let numFilesB ← readExact file 20 4
  let blockSizeB ← readExact file 24 4
  let flagsB ← readExact file 28 4
  let h : Header :=
    { magic := magic
      versionMajor := beVal vmajB
      versionMinor := beVal vminB
      compressionMethod := compB
      tocLength := beVal tocLenB
      tocEntrySize := beVal tocEntB
      numFiles := beVal numFilesB
      blockSize := beVal blockSizeB
      archiveFlags := beVal flagsB }
  if h.versionMajor ≠ 1 ∨ h.versionMinor ≠ 4 then
    throw (.unsupportedVersion h.versionMajor h.versionMinor)
  pure h

/-- PsarcFile::DecryptToc: zero-pad to a 16-byte multiple, AES-256-CFB128
decrypt, truncate back to the original length. -/
def decryptToc (M : Oracles) (data : List Nat) : List Nat :=
  if data.isEmpty then []
  else
    let padded := data ++ List.replicate ((data.length + 15) / 16 * 16 - data.length) 0
    (M.cfb padded).take data.length

/-- Window-bit arguments tried by PsarcFile::DecompressZlib, in order:
MAX_WBITS, -MAX_WBITS, MAX_WBITS + 32. -/
def windowBitsList : List Int := [15, -15, 47]

/-- PsarcFile::DecompressZlib: try the three window-bit configurations in
order; the first one that inflates to end-of-stream wins; empty input or
full failure yields the empty list. -/
def decompressZlib (M : Oracles) (data : List Nat) (uncompressedSize : Nat) : List Nat :=
  if data.isEmpty then []
  else
    match windowBitsList.findSome? (fun wb => M.inflate wb data uncompressedSize) with
    | some r => r
    | none => []

/-- PsarcFile::DecompressLzma: single lzma_alone attempt; empty input or
failure yields the empty list. -/
def decompressLzma (M : Oracles) (data : List Nat) (uncompressedSize : Nat) : List Nat :=
  if data.isEmpty then []
  else
    match M.lzmaDec data uncompressedSize with
    | some r => r
    | none => []

/-- Compression tag "zlib" as header bytes. -/
def zlibTag : List Nat := [122, 108, 105, 98]

/-- Compression tag "lzma" as header bytes. -/
def lzmaTag : List Nat := [108, 122, 109, 97]

/-- Per-chunk decompression dispatch of ExtractFileByIndex
(psarc_file.cpp lines 671-700): choose the decompressor by the archive
compression tag, falling back from zlib to lzma for unknown tags, and if
the result is empty append the raw chunk bytes verbatim. -/
def decompressChunk (M : Oracles) (compression : List Nat) (chunk : List Nat)
    (expectedSize : Nat) : List Nat :=
  let decompressed :=
    if compression = zlibTag then decompressZlib M chunk expectedSize
    else if compression = lzmaTag then decompressLzma M chunk expectedSize
    else
      let d := decompressZlib M chunk expectedSize
      if d.isEmpty then decompressLzma M chunk expectedSize else d
  if decompressed.isEmpty then chunk else decompressed

/-- Chunk-assembly loop of PsarcFile::ExtractFileByIndex (lines 634-702).
The remaining z-length suffix stands for z_index running over m_z_lengths;
reaching the empty suffix with bytes still needed is the
"Chunk index out of range" throw.  A z of 0 reads up to block_size bytes
from the file (fewer at end of file); a nonzero z reads exactly z bytes
and appends the decompressed (or raw fallback) block. -/
def extractLoop (M : Oracles) (compression : List Nat) (blockSize : Nat)
    (file : List Nat) (needed : Nat) :
    List Nat → Nat → List Nat → Except PsarcError (List Nat)
  | zs, cursor, acc =>
    if needed ≤ acc.length then .ok acc
    else
      match zs with
      | [] => .error .chunkIndexOutOfRange
      | z :: rest =>
        if z = 0 then
          let got := min blockSize (file.length - cursor)
          if got = 0 ∧ blockSize ≤ file.length - cursor then
            .error .readUncompressedBlockFailed
          else
            extractLoop M compression blockSize file needed rest (cursor + got)
              (acc ++ bytesAt file cursor got)
        else
          if file.length < cursor + z then .error .readCompressedChunkFailed
          else
            extractLoop M compression blockSize file needed rest (cursor + z)
              (acc ++ decompressChunk M compression (bytesAt file cursor z)
                (min (needed - acc.length) blockSize))

/-- PsarcFile::DecryptSng: validate the 24-byte wrapper, AES-256-CTR
decrypt the payload, and when flag bit 0x01 is set read the 32-bit LE
uncompressed size from the plaintext and inflate the rest.  The source
performs that four-byte read without any bounds check; the model makes
the out-of-bounds case observable as sngSizeReadOutOfBounds. -/
def decryptSng (M : Oracles) (data : List Nat) : Except PsarcError (List Nat) :=
  if data.length < 24 then .error .sngTooShort
  else if leVal (data.take 4) ≠ sngMagic then .error .invalidSngMagic
  else
    let flags := leVal (bytesAt data 4 4)
    let iv := bytesAt data 8 16
    let payload := data.drop 24
    let decrypted := M.ctr iv payload
    if flags % 2 = 1 then
      if decrypted.length < 4 then .error .sngSizeReadOutOfBounds
      else
        let uncompSize := leVal (decrypted.take 4)
        .ok (decompressZlib M (decrypted.drop 4) uncompSize)
    else .ok decrypted

/-- Byte string "songs/bin/generic/". -/
def sngDirPat : List Nat :=
  [115, 111, 110, 103, 115, 47, 98, 105, 110, 47, 103, 101, 110, 101, 114, 105, 99, 47]

/-- Byte string ".sng". -/
def sngExtPat : List Nat := [46, 115, 110, 103]

/-- Name predicate routing an entry through DecryptSng
(psarc_file.cpp line 706). -/
def isSngEntryName (name : List Nat) : Bool :=
  containsSeq sngDirPat name && endsWithSeq sngExtPat name

/-- PsarcFile::ExtractFileByIndex (lines 615-712): bounds-check the index,
short-circuit empty entries, assemble chunks starting at the entry offset,
truncate to the uncompressed size, then apply DecryptSng when the entry
name matches the SNG path predicate. -/
def extractFileByIndex (M : Oracles) (st : PsarcState) (index : Int) :
    Except PsarcError (List Nat) :=
  if index < 0 ∨ st.entries.length ≤ index.toNat then .error .invalidEntryIndex
  else
    let entry := st.entries.getD index.toNat default
    if entry.uncompressedSize = 0 then .ok []
    else do
      let raw ← extractLoop M st.header.compressionMethod st.header.blockSize st.file
        entry.uncompressedSize (st.zLengths.drop entry.startChunkIndex) entry.offset []
      let result := raw.take entry.uncompressedSize
      if isSngEntryName entry.name then decryptSng M result else .ok result

/-- Parse of one TOC entry record and its successors (loop body of
PsarcFile::ReadToc lines 471-501): skip 16 MD5 bytes unchecked, read the
32-bit start chunk index behind a 4-byte bounds check, then the b-byte
big-endian length and offset behind a 2b-byte bounds check. -/
def readTocEntries (b : Nat) (tocData : List Nat) :
    Nat → Nat → Except PsarcError (List FileEntry × Nat)
  | 0, pos => .ok ([], pos)
  | count + 1, pos =>
    let pos := pos + 16
    if tocData.length < pos + 4 then .error .tocTruncatedEntry
    else
      let sci := beVal (bytesAt tocData pos 4)
      let pos := pos + 4
      if tocData.length < pos + b * 2 then .error .tocTruncatedLength
      else
        let length := beVal (bytesAt tocData pos b)
        let offset := beVal (bytesAt tocData (pos + b) b)
        match readTocEntries b tocData count (pos + b * 2) with
        | .error e => .error e
        | .ok (rest, finalPos) =>
          .ok ({ name := [], offset := offset, uncompressedSize := length,
                 startChunkIndex := sci } :: rest, finalPos)

/-- Chunk-length table parse (PsarcFile::ReadToc lines 503-507): 16-bit
big-endian values while two bytes remain; a dangling odd byte is ignored. -/
def zTable : List Nat → List Nat
  | a :: b :: rest => (a * 256 + b) :: zTable rest
  | _ => []

/-- Width of the TOC length/offset fields as the source computes it:
static_cast to int, subtract 20, C++ truncating division by 2. -/
def bNumOf (tocEntrySize : Nat) : Int := (int32OfUInt32 tocEntrySize - 20).tdiv 2

/-- PsarcFile::ReadToc (lines 448-508): read toc_length - 32 bytes (with
uint32 wrap-around), decrypt when archive flag 0x04 is set, reject field
widths outside 1..8, then parse the entry records and the trailing
chunk-length table. -/
def readToc (M : Oracles) (file : List Nat) (h : Header) :
    Except PsarcError (List FileEntry × List Nat) := do
  let tocRaw ← readExact file 32 (sub32 h.tocLength 32)
  let tocData := if h.archiveFlags &&& 4 ≠ 0 then decryptToc M tocRaw else tocRaw
  let bNum := bNumOf h.tocEntrySize
  if bNum < 1 ∨ 8 < bNum then throw .invalidTocEntrySize
  else do
    let (entries, pos) ← readTocEntries bNum.toNat tocData h.numFiles 0
    pure (entries, zTable (tocData.drop pos))

/-- Whitespace set of the manifest trimming (" ", tab, CR, LF). -/
def isManifestWsp (c : Nat) : Bool := c = 32 ∨ c = 9 ∨ c = 13 ∨ c = 10

/-- Trim of one manifest line (find_first_not_of / find_last_not_of over
the whitespace set); an all-whitespace line yields none and is skipped. -/
def trimLine (l : List Nat) : Option (List Nat) :=
  let t := ((l.dropWhile isManifestWsp).reverse.dropWhile isManifestWsp).reverse
  if t.isEmpty then none else some t

/-- Line split and trim of the names manifest (PsarcFile::ReadManifest
lines 520-532): std::getline on newline followed by the trim. -/
def splitTrimLines (manifest : List Nat) : List (List Nat) :=
  (manifest.splitOn 10).filterMap trimLine

/-- Byte string "NamesBlock.bin". -/
def namesBlockName : List Nat :=
  [78, 97, 109, 101, 115, 66, 108, 111, 99, 107, 46, 98, 105, 110]

/-- Name assignment to entries 1..n-1 (loop of ReadManifest lines
537-541): stops as soon as either the entries or the name list runs out,
leaving later entries with their empty names. -/
def assignTail : List FileEntry → List (List Nat) → List FileEntry
  | [], _ => []
  | rest, [] => rest
  | e :: rest, n :: ns => { e with name := n } :: assignTail rest ns

/-- Entry naming of PsarcFile::ReadManifest: entry 0 becomes
NamesBlock.bin, later entries take manifest lines in order. -/
def assignNames (entries : List FileEntry) (names : List (List Nat)) : List FileEntry :=
  match entries with
  | [] => []
  | e :: rest => { e with name := namesBlockName } :: assignTail rest names

/-- PsarcFile::ReadManifest (lines 510-542): extract entry 0, split and
trim its lines, and assign names. -/
def readManifest (M : Oracles) (st : PsarcState) : Except PsarcError PsarcState := do
  if st.entries.isEmpty then throw .noEntries
  else do
    let manifestData ← extractFileByIndex M st 0
    let names := splitTrimLines manifestData
    pure { st with entries := assignNames st.entries names }

/-- PsarcFile::Open (lines 285-302): header, TOC, manifest. -/
def popen (M : Oracles) (file : List Nat) : Except PsarcError PsarcState := do
  let h ← readHeader file
  let (entries, zLengths) ← readToc M file h
  readManifest M { header := h, entries := entries, zLengths := zLengths, file := file }

/-- PsarcFile::GetFileList (lines 714-728): the names of the entries whose
name is non-empty, in entry order. -/
def getFileList (st : PsarcState) : List (List Nat) :=
  st.entries.filterMap (fun e => if e.name = [] then none else some e.name)

/-- Extraction trace of PsarcFile::ExtractAll (lines 765-818): the loop
visits entries in order, skips entries with empty names entirely, and
attempts extraction for the rest; the filesystem writes are outside the
model.  Each element pairs the visited index with its extraction result. -/
def extractAllProcessed (M : Oracles) (st : PsarcState) :
    List (Nat × Except PsarcError (List Nat)) :=
  (List.range st.entries.length).filterMap (fun i =>
    if (st.entries.getD i default).name = [] then none
    else some (i, extractFileByIndex M st (Int.ofNat i)))

/-- Number of blocks needed to cover size bytes at the archive block size,
as the specification defines blocks_needed (spec section 8). -/
def specBlocksNeeded (blockSize size : Nat) : Nat := (size + blockSize - 1) / blockSize

/-- Concrete oracle instance for witnesses: identity ciphers and failing
decompressors.  All witness archives below use only stored (z = 0) chunks,
so the decompressors are never consulted. -/
def zeroOracles : Oracles where
  cfb := id
  ctr := fun _ p => p
  inflate := fun _ _ _ => none
  lzmaDec := fun _ _ => none
  ctr_len := fun _ _ => rfl
  inflate_len := fun _ _ _ _ h => by cases h
  lzmaDec_len := fun _ _ _ h => by cases h

end Psarc

namespace Sng

/-- Errors of SngParser (src/src/sng_parser.cpp): the empty-data check of
Parse, the EnsureAvailable throw of BinaryReader, and the terminal
trailing-bytes check. -/
inductive SngErr where
  | emptyData
  | readPastEnd (offset need available : Nat)
  | trailingBytes (remaining : Nat)
  deriving DecidableEq

/-- Reader computation over an SNG buffer: from a position, produce a
value and the new position, or fail.  This is the BinaryReader cursor of
sng_parser.cpp made explicit. -/
def Rd (α : Type) : Type := List Nat → Nat → Except SngErr (α × Nat)

/-- Monad unit for Rd. -/
def rpure (a : α) : Rd α := fun _ p => .ok (a, p)

/-- Monad bind for Rd. -/
def rbind (m : Rd α) (f : α → Rd β) : Rd β := fun d p =>
  match m d p with
  | .ok (a, q) => f a d q
  | .error e => .error e

instance : Pure Rd := ⟨rpure⟩

instance : Bind Rd := ⟨rbind⟩

/-- BinaryReader::EnsureAvailable followed by an n-byte read: fails with
the offset, the requested width and the available remainder exactly as
the source formats them (sng_parser.cpp lines 18-26). -/
def readBytes (n : Nat) : Rd (List Nat) := fun d p =>
  if d.length < p + n then .error (.readPastEnd p n (d.length - p))
  else .ok (bytesAt d p n, p + n)

/-- BinaryReader::ReadUInt8. -/
def readU8 : Rd Nat := rbind (readBytes 1) (fun bs => rpure (leVal bs))

/-- BinaryReader::ReadInt8. -/
def readI8 : Rd Int := rbind (readBytes 1) (fun bs => rpure (int8OfNat (leVal bs)))

/-- BinaryReader::ReadUInt16 (little-endian). -/
def readU16 : Rd Nat := rbind (readBytes 2) (fun bs => rpure (leVal bs))

/-- BinaryReader::ReadInt16. -/
def readI16 : Rd Int := rbind (readBytes 2) (fun bs => rpure (int16OfUInt16 (leVal bs)))

/-- BinaryReader::ReadUInt32 (little-endian). -/
def readU32 : Rd Nat := rbind (readBytes 4) (fun bs => rpure (leVal bs))

/-- BinaryReader::ReadInt32. -/
def readI32 : Rd Int := rbind (readBytes 4) (fun bs => rpure (int32OfUInt32 (leVal bs)))

/-- BinaryReader::ReadFloat: the parser memcpy-copies four bytes; the
model keeps the little-endian IEEE-754 bit pattern. -/
def readF32 : Rd Nat := rbind (readBytes 4) (fun bs => rpure (leVal bs))

/-- BinaryReader::ReadDouble, kept as its 64-bit pattern. -/
def readF64 : Rd Nat := rbind (readBytes 8) (fun bs => rpure (leVal bs))

/-- BinaryReader::ReadFixedString: advance exactly n bytes, keep the bytes
up to the first NUL. -/
def readFixedString (n : Nat) : Rd (List Nat) :=
  rbind (readBytes n) (fun bs => rpure (bs.takeWhile (fun b => b ≠ 0)))

/-- Count-driven record loop: n records in order (the resize followed by
a range-for that every section reader of sng_parser.cpp uses). -/
def rreplicate (m : Rd α) : Nat → Rd (List α)
  | 0 => rpure []
  | n + 1 => rbind m (fun a => rbind (rreplicate m n) (fun as => rpure (a :: as)))

/-- BendValue record (ReadBendValue). -/
structure BendValue where
  time : Nat := 0
  step : Nat := 0
  unk1 : Int := 0
  unk2 : Nat := 0
  unk3 : Nat := 0
  deriving DecidableEq

instance : Inhabited BendValue := ⟨{}⟩

/-- Bpm record (section 1). -/
structure Bpm where
  time : Nat
  measure : Int
  beat : Int
  phrase_iteration : Int
  mask : Int
  deriving DecidableEq

/-- Phrase record (section 2). -/
structure Phrase where
  solo : Nat
  disparity : Nat
  ignore : Nat
  padding : Nat
  max_difficulty : Int
  phrase_iteration_links : Int
  name : List Nat
  deriving DecidableEq

/-- Chord record (section 3); frets and fingers carry the 0xFF-to-minus-one
mapping applied at read time. -/
structure Chord where
  mask : Nat
  frets : List Int
  fingers : List Int
  notes : List Int
  name : List Nat
  deriving DecidableEq

/-- BendData sub-record of ChordNotes. -/
structure BendData where
  bend_values : List BendValue
  used_count : Int
  deriving DecidableEq

instance : Inhabited BendData := ⟨⟨[], 0⟩⟩

/-- ChordNotes record (section 4). -/
structure ChordNotes where
  mask : List Nat
  bend_data : List BendData
  slide_to : List Int
  slide_unpitch_to : List Int
  vibrato : List Int
  deriving DecidableEq

/-- Vocal record (section 5). -/
structure Vocal where
  time : Nat
  note : Int
  length : Nat
  lyric : List Nat
  deriving DecidableEq

/-- SymbolsHeader record (section 6). -/
structure SymbolsHeader where
  unk1 : Int
  unk2 : Int
  unk3 : Int
  unk4 : Int
  unk5 : Int
  unk6 : Int
  unk7 : Int
  unk8 : Int
  deriving DecidableEq

/-- SymbolsTexture record (section 7). -/
structure SymbolsTexture where
  font_name : List Nat
  font_path_length : Int
  unk : Int
  width : Int
  height : Int
  deriving DecidableEq

/-- SymbolDefinition record (section 8). -/
structure SymbolDefinition where
  text : List Nat
  rect_outer : List Nat
  rect_inner : List Nat
  deriving DecidableEq

/-- PhraseIteration record (section 9). -/
structure PhraseIteration where
  phrase_id : Int
  start_time : Nat
  next_phrase_time : Nat
  difficulty : List Int
  deriving DecidableEq

/-- PhraseExtraInfo record (section 10). -/
structure PhraseExtraInfo where
  phrase_id : Int
  difficulty : Int
  empty : Int
  level_jump : Nat
  redundant : Int
  padding : Nat
  deriving DecidableEq

/-- NLinkedDifficulty record (section 11). -/
structure NLinkedDifficulty where
  level_break : Int
  nld_phrases : List Int
  deriving DecidableEq

/-- Action record (section 12). -/
structure Action where
  time : Nat
  name : List Nat
  deriving DecidableEq

/-- Event record (section 13). -/
structure Event where
  time : Nat
  name : List Nat
  deriving DecidableEq

/-- Tone record (section 14). -/
structure Tone where
  time : Nat
  tone_id : Int
  deriving DecidableEq

/-- Dna record (section 15). -/
structure Dna where
  time : Nat
  dna_id : Int
  deriving DecidableEq

/-- Section record (section 16). -/
structure Section where
  name : List Nat
  number : Int
  start_time : Nat
  end_time : Nat
  start_phrase_iteration_index : Int
  end_phrase_iteration_index : Int
  string_bytes : List Nat
  deriving DecidableEq

/-- Anchor sub-record of an arrangement. -/
structure Anchor where
  start_time : Nat
  end_time : Nat
  unk1 : Nat
  unk2 : Nat
  fret : Int
  width : Int
  phrase_iteration_index : Int
  deriving DecidableEq

/-- AnchorExtension sub-record of an arrangement. -/
structure AnchorExtension where
  beat_time : Nat
  fret_id : Int
  unk2 : Int
  unk3 : Int
  unk4 : Int
  deriving DecidableEq

/-- Fingerprint sub-record of an arrangement (handshape or arpeggio). -/
structure Fingerprint where
  chord_id : Int
  start_time : Nat
  end_time : Nat
  unk1 : Nat
  unk2 : Nat
  deriving DecidableEq

/-- Note record (ReadNote). -/
structure Note where
  mask : Nat
  flags : Nat
  hash : Nat
  time : Nat
  string : Int
  fret : Int
  anchor_fret : Int
  anchor_width : Int
  chord_id : Int
  chord_notes_id : Int
  phrase_id : Int
  phrase_iteration_id : Int
  fingerprint_id : List Int
  next_iteration : Int
  prev_iteration : Int
  parent_prev_note : Int
  slide_to : Int
  slide_unpitch_to : Int
  left_hand : Int
  tap : Int
  pick_direction : Int
  slap : Int
  pluck : Int
  vibrato : Int
  sustain : Nat
  max_bend : Nat
  bend_values : List BendValue
  deriving DecidableEq

/-- Arrangement record (section 17). -/
structure Arrangement where
  difficulty : Int
  anchors : List Anchor
  anchor_extensions : List AnchorExtension
  fingerprints_arpeggio : List Fingerprint
  fingerprints_handshape : List Fingerprint
  notes : List Note
  phrase_count : Int
  average_notes_per_iteration : List Nat
  phrase_iteration_count1 : Int
  notes_in_iteration1 : List Int
  phrase_iteration_count2 : Int
  notes_in_iteration2 : List Int
  deriving DecidableEq

/-- Metadata record (section 18). -/
structure Metadata where
  max_score : Nat
  max_notes_and_chords : Nat
  max_notes_and_chords_real : Nat
  point_per_note : Nat
  first_beat_length : Nat
  start_time : Nat
  capo_fret_id : Int
  last_conversion_date_time : List Nat
  part : Int
  song_length : Nat
  string_count : Int
  tuning : List Int
  first_note_time : Nat
  first_note_time2 : Nat
  max_difficulty : Int
  deriving DecidableEq

/-- Parsed SNG model (sng::SngData). -/
structure SngData where
  bpms : List Bpm
  phrases : List Phrase
  chords : List Chord
  chord_notes : List ChordNotes
  vocals : List Vocal
  symbols_headers : List SymbolsHeader
  symbols_textures : List SymbolsTexture
  symbol_definitions : List SymbolDefinition
  phrase_iterations : List PhraseIteration
  phrase_extra_infos : List PhraseExtraInfo
  nlinked_difficulties : List NLinkedDifficulty
  actions : List Action
  events : List Event
  tones : List Tone
  dnas : List Dna
  sections : List Section
  arrangements : List Arrangement
  metadata : Metadata
  deriving DecidableEq

/-- ReadBendValue. -/
def readBendValue : Rd BendValue := do
  let t ← readF32
  let s ← readF32
  let u1 ← readI16
  let u2 ← readU8
  let u3 ← readU8
  pure { time := t, step := s, unk1 := u1, unk2 := u2, unk3 := u3 }

/-- Section counts are read as 32-bit little-endian values; the source
stores them in int variables and feeds them to std::vector::resize, so
the loop below runs the unsigned value (identical behavior on every
buffer the source can parse without a length_error). -/
def readCount : Rd Nat := readU32

/-- ReadBpms (section 1). -/
def readBpms : Rd (List Bpm) := do
  let count ← readCount
  rreplicate
    (do
      let t ← readF32
      let me ← readI16
      let be ← readI16
      let pi ← readI32
      let ma ← readI32
      pure { time := t, measure := me, beat := be, phrase_iteration := pi, mask := ma })
    count

/-- ReadPhrases (section 2). -/
def readPhrases : Rd (List Phrase) := do
  let count ← readCount
  rreplicate
    (do
      let so ← readU8
      let di ← readU8
      let ig ← readU8
      let pa ← readU8
      let md ← readI32
      let pil ← readI32
      let nm ← readFixedString 32
      pure { solo := so, disparity := di, ignore := ig, padding := pa,
             max_difficulty := md, phrase_iteration_links := pil, name := nm })
    count

/-- Fret or finger byte of a chord: read unsigned, map 0xFF to -1 and the
rest through static_cast to int8_t. -/
def readFretByte : Rd Int := do
  let raw ← readU8
  pure (if raw = 255 then -1 else int8OfNat raw)

/-- ReadChords (section 3). -/
def readChords : Rd (List Chord) := do
  let count ← readCount
  rreplicate
    (do
      let ma ← readU32
      let fr ← rreplicate readFretByte 6
      let fi ← rreplicate readFretByte 6
      let no ← rreplicate readI32 6
      let nm ← readFixedString 32
      pure { mask := ma, frets := fr, fingers := fi, notes := no, name := nm })
    count

/-- One BendData block of ReadChordNotes: always exactly 32 BendValue
records, then the used count, then the truncating (or padding) resize. -/
def readBendData : Rd BendData := do
  let bvs ← rreplicate readBendValue 32
  let ucRaw ← readU32
  pure { bend_values := resizeList bvs ucRaw default, used_count := int32OfUInt32 ucRaw }

/-- ReadChordNotes (section 4). -/
def readChordNotes : Rd (List ChordNotes) := do
  let count ← readCount
  rreplicate
    (do
      let ma ← rreplicate readU32 6
      let bd ← rreplicate readBendData 6
      let st ← rreplicate readI8 6
      let sut ← rreplicate readI8 6
      let vi ← rreplicate readI16 6
      pure { mask := ma, bend_data := bd, slide_to := st, slide_unpitch_to := sut,
             vibrato := vi })
    count

/-- ReadVocals (section 5). -/
def readVocals : Rd (List Vocal) := do
  let count ← readCount
  rreplicate
    (do
      let t ← readF32
      let no ← readI32
      let le ← readF32
      let ly ← readFixedString 48
      pure { time := t, note := no, length := le, lyric := ly })
    count

/-- ReadSymbolsHeaders (section 6). -/
def readSymbolsHeaders : Rd (List SymbolsHeader) := do
  let count ← readCount
  rreplicate
    (do
      let a ← readI32
      let b ← readI32
      let c ← readI32
      let d ← readI32
      let e ← readI32
      let f ← readI32
      let g ← readI32
      let h ← readI32
      pure { unk1 := a, unk2 := b, unk3 := c, unk4 := d, unk5 := e, unk6 := f,
             unk7 := g, unk8 := h })
    count

/-- ReadSymbolsTextures (section 7). -/
def readSymbolsTextures : Rd (List SymbolsTexture) := do
  let count ← readCount
  rreplicate
    (do
      let fn ← readFixedString 128
      let fpl ← readI32
      let un ← readI32
      let w ← readI32
      let h ← readI32
      pure { font_name := fn, font_path_length := fpl, unk := un, width := w, height := h })
    count

/-- ReadSymbolDefinitions (section 8). -/
def readSymbolDefinitions : Rd (List SymbolDefinition) := do
  let count ← readCount
  rreplicate
    (do
      let tx ← readFixedString 12
      let ro ← rreplicate readF32 4
      let ri ← rreplicate readF32 4
      pure { text := tx, rect_outer := ro, rect_inner := ri })
    count

/-- ReadPhraseIterations (section 9). -/
def readPhraseIterations : Rd (List PhraseIteration) := do
  let count ← readCount
  rreplicate
    (do
      let pid ← readI32
      let st ← readF32
      let nt ← readF32
      let di ← rreplicate readI32 3
      pure { phrase_id := pid, start_time := st, next_phrase_time := nt, difficulty := di })
    count

/-- ReadPhraseExtraInfos (section 10). -/
def readPhraseExtraInfos : Rd (List PhraseExtraInfo) := do
  let count ← readCount
  rreplicate
    (do
      let pid ← readI32
      let di ← readI32
      let em ← readI32
      let lj ← readU8
      let re ← readI16
      let pa ← readU8
      pure { phrase_id := pid, difficulty := di, empty := em, level_jump := lj,
             redundant := re, padding := pa })
    count

/-- ReadNLinkedDifficulties (section 11). -/
def readNLinkedDifficulties : Rd (List NLinkedDifficulty) := do
  let count ← readCount
  rreplicate
    (do
      let lb ← readI32
      let phraseCount ← readCount
      let ph ← rreplicate readI32 phraseCount
      pure { level_break := lb, nld_phrases := ph })
    count

/-- ReadActions (section 12). -/
def readActions : Rd (List Action) := do
  let count ← readCount
  rreplicate
    (do
      let t ← readF32
      let nm ← readFixedString 256
      pure { time := t, name := nm })
    count

/-- ReadEvents (section 13). -/
def readEvents : Rd (List Event) := do
  let count ← readCount
  rreplicate
    (do
      let t ← readF32
      let nm ← readFixedString 256
      pure { time := t, name := nm })
    count

/-- ReadTones (section 14). -/
def readTones : Rd (List Tone) := do
  let count ← readCount
  rreplicate
    (do
      let t ← readF32
      let tid ← readI32
      pure { time := t, tone_id := tid })
    count

/-- ReadDnas (section 15). -/
def readDnas : Rd (List Dna) := do
  let count ← readCount
  rreplicate
    (do
      let t ← readF32
      let did ← readI32
      pure { time := t, dna_id := did })
    count

/-- ReadSections (section 16). -/
def readSections : Rd (List Section) := do
  let count ← readCount
  rreplicate
    (do
      let nm ← readFixedString 32
      let nu ← readI32
      let st ← readF32
      let et ← readF32
      let spi ← readI32
      let epi ← readI32
      let sb ← rreplicate readU8 36
      pure { name := nm, number := nu, start_time := st, end_time := et,
             start_phrase_iteration_index := spi, end_phrase_iteration_index := epi,
             string_bytes := sb })
    count

/-- ReadNote. -/
def readNote : Rd Note := do
  let ma ← readU32
  let fl ← readU32
  let ha ← readU32
  let ti ← readF32
  let st ← readI8
  let fr ← readI8
  let af ← readI8
  let aw ← readI8
  let ci ← readI32
  let cni ← readI32
  let pi ← readI32
  let pii ← readI32
  let fp0 ← readI16
  let fp1 ← readI16
  let ni ← readI16
  let pri ← readI16
  let ppn ← readI16
  let sl ← readI8
  let sun ← readI8
  let lh ← readI8
  let ta ← readI8
  let pd ← readI8
  let sa ← readI8
  let pl ← readI8
  let vi ← readI16
  let su ← readF32
  let mb ← readF32
  let bendCount ← readCount
  let bvs ← rreplicate readBendValue bendCount
  pure { mask := ma, flags := fl, hash := ha, time := ti, string := st, fret := fr,
         anchor_fret := af, anchor_width := aw, chord_id := ci, chord_notes_id := cni,
         phrase_id := pi, phrase_iteration_id := pii, fingerprint_id := [fp0, fp1],
         next_iteration := ni, prev_iteration := pri, parent_prev_note := ppn,
         slide_to := sl, slide_unpitch_to := sun, left_hand := lh, tap := ta,
         pick_direction := pd, slap := sa, pluck := pl, vibrato := vi, sustain := su,
         max_bend := mb, bend_values := bvs }

/-- Anchor record of ReadArrangements. -/
def readAnchor : Rd Anchor := do
  let st ← readF32
  let et ← readF32
  let u1 ← readF32
  let u2 ← readF32
  let fr ← readI32
  let wi ← readI32
  let pii ← readI32
  pure { start_time := st, end_time := et, unk1 := u1, unk2 := u2, fret := fr,
         width := wi, phrase_iteration_index := pii }

/-- AnchorExtension record of ReadArrangements. -/
def readAnchorExtension : Rd AnchorExtension := do
  let bt ← readF32
  let fid ← readI8
  let u2 ← readI32
  let u3 ← readI16
  let u4 ← readI8
  pure { beat_time := bt, fret_id := fid, unk2 := u2, unk3 := u3, unk4 := u4 }

/-- Fingerprint record of ReadArrangements. -/
def readFingerprint : Rd Fingerprint := do
  let ci ← readI32
  let st ← readF32
  let et ← readF32
  let u1 ← readF32
  let u2 ← readF32
  pure { chord_id := ci, start_time := st, end_time := et, unk1 := u1, unk2 := u2 }

/-- One arrangement of ReadArrangements (section 17). -/
def readArrangement : Rd Arrangement := do
  let di ← readI32
  let anchorCount ← readCount
  let anchors ← rreplicate readAnchor anchorCount
  let extCount ← readCount
  let exts ← rreplicate readAnchorExtension extCount
  let hsCount ← readCount
  let hs ← rreplicate readFingerprint hsCount
  let arpCount ← readCount
  let arps ← rreplicate readFingerprint arpCount
  let noteCount ← readCount
  let notes ← rreplicate readNote noteCount
  let phraseCount ← readCount
  let avg ← rreplicate readF32 phraseCount
  let pic1 ← readCount
  let ni1 ← rreplicate readI32 pic1
  let pic2 ← readCount
  let ni2 ← rreplicate readI32 pic2
  pure { difficulty := di, anchors := anchors, anchor_extensions := exts,
         fingerprints_handshape := hs, fingerprints_arpeggio := arps, notes := notes,
         phrase_count := int32OfUInt32 phraseCount, average_notes_per_iteration := avg,
         phrase_iteration_count1 := int32OfUInt32 pic1, notes_in_iteration1 := ni1,
         phrase_iteration_count2 := int32OfUInt32 pic2, notes_in_iteration2 := ni2 }

/-- ReadArrangements (section 17). -/
def readArrangements : Rd (List Arrangement) := do
  let count ← readCount
  rreplicate readArrangement count

/-- ReadMetadata (section 18). -/
def readMetadata : Rd Metadata := do
  let ms ← readF64
  let mnc ← readF64
  let mncr ← readF64
  let ppn ← readF64
  let fbl ← readF32
  let st ← readF32
  let cfi ← readI8
  let lcdt ← readFixedString 32
  let pa ← readI16
  let sl ← readF32
  let scRaw ← readCount
  let tu ← rreplicate readI16 scRaw
  let fnt ← readF32
  let fnt2 ← readF32
  let md ← readI32
  pure { max_score := ms, max_notes_and_chords := mnc, max_notes_and_chords_real := mncr,
         point_per_note := ppn, first_beat_length := fbl, start_time := st,
         capo_fret_id := cfi, last_conversion_date_time := lcdt, part := pa,
         song_length := sl, string_count := int32OfUInt32 scRaw, tuning := tu,
         first_note_time := fnt, first_note_time2 := fnt2, max_difficulty := md }

/-- Vocals-conditional block of SngParser::Parse (lines 620-625): the
three symbol sections are read exactly when the vocals are non-empty. -/
def readSymbolsBlock (vocals : List Vocal) :
    Rd (List SymbolsHeader × List SymbolsTexture × List SymbolDefinition) :=
  if vocals.isEmpty then pure ([], [], [])
  else do
    let sh ← readSymbolsHeaders
    let st ← readSymbolsTextures
    let sd ← readSymbolDefinitions
    pure (sh, st, sd)

/-- Section sequence of SngParser::Parse (lines 615-635): the fixed order
of the eighteen sections, with the three symbol sections present exactly
when the vocals array is non-empty. -/
def parseSngSections : Rd SngData := do
  let bpms ← readBpms
  let phrases ← readPhrases
  let chords ← readChords
  let chordNotes ← readChordNotes
  let vocals ← readVocals
  let syms ← readSymbolsBlock vocals
  let phraseIterations ← readPhraseIterations
  let phraseExtraInfos ← readPhraseExtraInfos
  let nlds ← readNLinkedDifficulties
  let actions ← readActions
  let events ← readEvents
  let tones ← readTones
  let dnas ← readDnas
  let sections ← readSections
  let arrangements ← readArrangements
  let metadata ← readMetadata
  pure { bpms := bpms, phrases := phrases, chords := chords, chord_notes := chordNotes,
         vocals := vocals, symbols_headers := syms.1, symbols_textures := syms.2.1,
         symbol_definitions := syms.2.2, phrase_iterations := phraseIterations,
         phrase_extra_infos := phraseExtraInfos, nlinked_difficulties := nlds,
         actions := actions, events := events, tones := tones, dnas := dnas,
         sections := sections, arrangements := arrangements, metadata := metadata }

/-- SngParser::Parse (lines 605-645): reject the empty buffer, run the
section sequence, and require the cursor to sit exactly at the end of the
buffer, otherwise fail with the number of remaining bytes. -/
def sngParse (d : List Nat) : Except SngErr SngData :=
  if d.isEmpty then .error .emptyData
  else
    match parseSngSections d 0 with
    | .error e => .error e
    | .ok (s, p) =>
      if p ≠ d.length then .error (.trailingBytes (d.length - p)) else .ok s

/-- Smallest well-formed SNG buffer: fourteen zero section counts (the
vocals are empty, so the symbol sections are absent) followed by an
all-zero 95-byte metadata record. -/
def demoSng : List Nat := List.replicate 151 0

end Sng

namespace Sng

/-- Extension stability of a reader computation: a successful run is
unaffected by bytes appended after the end of the buffer.  Every
BinaryReader-based computation of sng_parser.cpp has this property, which
is what turns a well-formed buffer plus stray trailing bytes into a
TrailingBytes failure rather than a different parse. -/
def Stable (m : Rd α) : Prop :=
  ∀ (d extra : List Nat) (p : Nat) (a : α) (q : Nat),
    m d p = .ok (a, q) → m (d ++ extra) p = .ok (a, q)

end Sng

namespace Xmlw

/-- Attribute value of an emitted XML node: plain integer, literal string,
fixed three-decimal float, or shortest-form float.  Float-valued
attributes keep the rational value together with the formatting mode the
source selects (FormatFloat versus FormatPlainFloat). -/
inductive AttrVal where
  | i (n : Int)
  | s (v : String)
  | f3 (q : ℚ)
  | plain (q : ℚ)
  deriving DecidableEq

/-- Emitted XML node: element name, attributes in append order, child
elements in append order, and text content. -/
inductive XmlNode where
  | node (name : String) (attrs : List (String × AttrVal)) (children : List XmlNode)
      (text : String)

/-- Element name of a node. -/
def XmlNode.name : XmlNode → String
  | .node n _ _ _ => n

/-- Attribute list of a node. -/
def XmlNode.attrs : XmlNode → List (String × AttrVal)
  | .node _ a _ _ => a

/-- Child list of a node. -/
def XmlNode.children : XmlNode → List XmlNode
  | .node _ _ c _ => c

/-- Text content of a node. -/
def XmlNode.text : XmlNode → String
  | .node _ _ _ t => t

/-- First attribute of the given name, as pugixml resolves attributes. -/
def lookupAttr (nd : XmlNode) (key : String) : Option AttrVal :=
  (nd.attrs.find? (fun a => a.1 = key)).map (fun a => a.2)

/-- Three-digit zero padding of the fractional part. -/
def pad3 (n : Nat) : String :=
  if n < 10 then "00" ++ toString n
  else if n < 100 then "0" ++ toString n
  else toString n

/-- FormatFloat of sng_xml_writer.cpp: fixed three-decimal formatting
(std::format with .3f).  Modeled exactly on the rationals, rounding the
thousandths half away from zero; the source formats the nearest binary
float, which agrees on every value whose scaled thousandths are not a
representation tie (all values of this development). -/
def fmt3 (q : ℚ) : String :=
  let n0 : Nat := q.num.natAbs * 1000
  let n : Nat := n0 / q.den + (if q.den ≤ 2 * (n0 % q.den) then 1 else 0)
  (if q.num < 0 then "-" else "") ++ toString (n / 1000) ++ "." ++ pad3 (n % 1000)

/-- NoteMask flag CHORD. -/
def fCHORD : Nat := 0x00000002

/-- NoteMask flag FRETHANDMUTE. -/
def fFRETHANDMUTE : Nat := 0x00000008

/-- NoteMask flag TREMOLO. -/
def fTREMOLO : Nat := 0x00000010

/-- NoteMask flag HARMONIC. -/
def fHARMONIC : Nat := 0x00000020

/-- NoteMask flag PALMMUTE. -/
def fPALMMUTE : Nat := 0x00000040

/-- NoteMask flag SLAP. -/
def fSLAP : Nat := 0x00000080

/-- NoteMask flag PLUCK. -/
def fPLUCK : Nat := 0x00000100

/-- NoteMask flag HAMMERON. -/
def fHAMMERON : Nat := 0x00000200

/-- NoteMask flag PULLOFF. -/
def fPULLOFF : Nat := 0x00000400

/-- NoteMask flag SLIDE. -/
def fSLIDE : Nat := 0x00000800

/-- NoteMask flag TAP. -/
def fTAP : Nat := 0x00004000

/-- NoteMask flag PINCHHARMONIC. -/
def fPINCHHARMONIC : Nat := 0x00008000

/-- NoteMask flag VIBRATO. -/
def fVIBRATO : Nat := 0x00010000

/-- NoteMask flag MUTE. -/
def fMUTE : Nat := 0x00020000

/-- NoteMask flag IGNORE. -/
def fIGNORE : Nat := 0x00040000

/-- NoteMask flag RIGHTHAND. -/
def fRIGHTHAND : Nat := 0x00100000

/-- NoteMask flag HIGHDENSITY. -/
def fHIGHDENSITY : Nat := 0x00200000

/-- NoteMask flag SLIDEUNPITCHEDTO. -/
def fSLIDEUNPITCHEDTO : Nat := 0x00400000

/-- NoteMask flag ACCENT. -/
def fACCENT : Nat := 0x04000000

/-- NoteMask flag PARENT. -/
def fPARENT : Nat := 0x08000000

/-- NoteMask flag CHORDPANEL. -/
def fCHORDPANEL : Nat := 0x80000000

/-- Flag test Has of sng_xml_writer.cpp. -/
def hasFlag (mask flag : Nat) : Bool := mask &&& flag ≠ 0

/-- Writer-side BendValue: the emitter reads time and step as floats,
modeled as rationals. -/
structure BendValue where
  time : ℚ := 0
  step : ℚ := 0
  deriving DecidableEq

instance : Inhabited BendValue := ⟨{}⟩

/-- Writer-side BendData. -/
structure BendData where
  bend_values : List BendValue := []
  used_count : Int := 0
  deriving DecidableEq

instance : Inhabited BendData := ⟨{}⟩

/-- Writer-side chord template (sng::Chord as the emitter consumes it). -/
structure Chord where
  mask : Nat := 0
  frets : List Int := []
  fingers : List Int := []
  notes : List Int := []
  name : String := ""
  deriving DecidableEq

instance : Inhabited Chord := ⟨{}⟩

/-- Writer-side ChordNotes record. -/
structure ChordNotes where
  mask : List Nat := []
  bend_data : List BendData := []
  slide_to : List Int := []
  slide_unpitch_to : List Int := []
  vibrato : List Int := []
  deriving DecidableEq

instance : Inhabited ChordNotes := ⟨{}⟩

/-- Writer-side note record (sng::Note with float fields as rationals). -/
structure Note where
  mask : Nat := 0
  flags : Nat := 0
  hash : Nat := 0
  time : ℚ := 0
  string : Int := 0
  fret : Int := 0
  anchor_fret : Int := 0
  anchor_width : Int := 0
  chord_id : Int := 0
  chord_notes_id : Int := 0
  phrase_id : Int := 0
  phrase_iteration_id : Int := 0
  slide_to : Int := 0
  slide_unpitch_to : Int := 0
  left_hand : Int := 0
  tap : Int := 0
  pick_direction : Int := 0
  slap : Int := 0
  pluck : Int := 0
  vibrato : Int := 0
  sustain : ℚ := 0
  max_bend : ℚ := 0
  bend_values : List BendValue := []
  deriving DecidableEq

instance : Inhabited Note := ⟨{}⟩

/-- Writer-side fingerprint (sng::Fingerprint with rational times). -/
structure Fingerprint where
  chord_id : Int := 0
  start_time : ℚ := 0
  end_time : ℚ := 0
  unk1 : ℚ := 0
  unk2 : ℚ := 0
  deriving DecidableEq

/-- Writer-side arrangement, restricted to the fingerprint arrays the
handShapes fragment of WriteInstrumentalXml reads. -/
structure Arrangement where
  fingerprints_handshape : List Fingerprint := []
  fingerprints_arpeggio : List Fingerprint := []
  deriving DecidableEq

/-- WriteBendValues (sng_xml_writer.cpp lines 99-117): nothing for an
empty list, otherwise one bendValues element whose bendValue children
carry time always and step only when its magnitude exceeds the literal
0.000001f (modeled as one millionth). -/
def writeBendValues (bends : List BendValue) : List XmlNode :=
  if bends.isEmpty then []
  else
    [XmlNode.node "bendValues" [("count", AttrVal.i (bends.length : Int))]
      (bends.map (fun b =>
        XmlNode.node "bendValue"
          ([("time", AttrVal.f3 b.time)]
            ++ (if (1 : ℚ)/1000000 < |b.step| then [("step", AttrVal.f3 b.step)] else []))
          [] ""))
      ""]

/-- WriteChordNoteFromTemplate (sng_xml_writer.cpp lines 207-322): emit
nothing when the chord id does not reference a template or the template
fret of the string is negative; otherwise a chordNote with time, string
and template fret, optional sustain, and, when the chord-notes id is
valid, the per-string technique attributes followed by the bend values;
the left hand finger appears unless the raw template finger byte is 0xFF. -/
def writeChordNoteFromTemplate (chords : List Chord) (chordNotes : List ChordNotes)
    (note : Note) (stringIdx : Nat) : Option XmlNode :=
  if note.chord_id < 0 ∨ chords.length ≤ note.chord_id.toNat then none
  else
    let templateChord := chords.getD note.chord_id.toNat default
    if templateChord.frets.getD stringIdx 0 < 0 then none
    else
      let baseAttrs :=
        [("time", AttrVal.f3 note.time), ("string", AttrVal.i (stringIdx : Int)),
         ("fret", AttrVal.i (templateChord.frets.getD stringIdx 0))]
        ++ (if 0 < note.sustain then [("sustain", AttrVal.f3 note.sustain)] else [])
      let rawFinger := uint8OfInt8 (templateChord.fingers.getD stringIdx 0)
      let leftHand : Int := if rawFinger = 255 then -1 else (rawFinger : Int)
      if note.chord_notes_id < 0 ∨ chordNotes.length ≤ note.chord_notes_id.toNat then
        some (XmlNode.node "chordNote"
          (baseAttrs ++ (if leftHand ≠ -1 then [("leftHand", AttrVal.i leftHand)] else []))
          [] "")
      else
        let cn := chordNotes.getD note.chord_notes_id.toNat default
        let m := cn.mask.getD stringIdx 0
        let flagAttrs :=
          (if hasFlag m fPARENT then [("linkNext", AttrVal.i 1)] else [])
          ++ (if hasFlag m fACCENT then [("accent", AttrVal.i 1)] else [])
          ++ (if ¬ (cn.bend_data.getD stringIdx default).bend_values.isEmpty then
                [("bend", AttrVal.s "0")] else [])
          ++ (if hasFlag m fHAMMERON then [("hammerOn", AttrVal.i 1)] else [])
          ++ (if hasFlag m fHARMONIC then [("harmonic", AttrVal.i 1)] else [])
          ++ (if hasFlag m fHAMMERON ∨ hasFlag m fPULLOFF then [("hopo", AttrVal.i 1)] else [])
          ++ (if hasFlag m fIGNORE then [("ignore", AttrVal.i 1)] else [])
          ++ (if leftHand ≠ -1 then [("leftHand", AttrVal.i leftHand)] else [])
          ++ (if hasFlag m fMUTE then [("mute", AttrVal.i 1)] else [])
          ++ (if hasFlag m fPALMMUTE then [("palmMute", AttrVal.i 1)] else [])
          ++ (if hasFlag m fPLUCK then [("pluck", AttrVal.i 1)] else [])
          ++ (if hasFlag m fPULLOFF then [("pullOff", AttrVal.i 1)] else [])
          ++ (if hasFlag m fSLAP then [("slap", AttrVal.i 1)] else [])
          ++ (if hasFlag m fSLIDE ∧ 0 ≤ cn.slide_to.getD stringIdx 0 then
                [("slideTo", AttrVal.i (cn.slide_to.getD stringIdx 0))] else [])
          ++ (if hasFlag m fTREMOLO then [("tremolo", AttrVal.i 1)] else [])
          ++ (if hasFlag m fPINCHHARMONIC then [("harmonicPinch", AttrVal.i 1)] else [])
          ++ (if hasFlag m fRIGHTHAND then [("rightHand", AttrVal.i 1)] else [])
          ++ (if hasFlag m fSLIDEUNPITCHEDTO ∧ 0 ≤ cn.slide_unpitch_to.getD stringIdx 0 then
                [("slideUnpitchTo", AttrVal.i (cn.slide_unpitch_to.getD stringIdx 0))] else [])
          ++ (if hasFlag m fVIBRATO ∧ 0 < cn.vibrato.getD stringIdx 0 then
                [("vibrato", AttrVal.i (cn.vibrato.getD stringIdx 0))] else [])
        some (XmlNode.node "chordNote" (baseAttrs ++ flagAttrs)
          (writeBendValues (cn.bend_data.getD stringIdx default).bend_values) "")

/-- Chord-panel expansion of the chord emission loop (sng_xml_writer.cpp
lines 644-650): when CHORDPANEL is set, one WriteChordNoteFromTemplate
call per string 0..5 in order, each appending its chordNote if any. -/
def chordPanelChildren (chords : List Chord) (chordNotes : List ChordNotes)
    (note : Note) : List XmlNode :=
  if hasFlag note.mask fCHORDPANEL then
    (List.range 6).filterMap (writeChordNoteFromTemplate chords chordNotes note)
  else []

/-- Manifest overlay arrangement properties (SngManifestArrangementProperties). -/
structure ManifestArrangementProperties where
  represent : Int := 0
  bonus_arr : Int := 0
  standard_tuning : Int := 0
  non_standard_chords : Int := 0
  barre_chords : Int := 0
  power_chords : Int := 0
  drop_d_power : Int := 0
  open_chords : Int := 0
  finger_picking : Int := 0
  pick_direction : Int := 0
  double_stops : Int := 0
  palm_mutes : Int := 0
  harmonics : Int := 0
  pinch_harmonics : Int := 0
  hopo : Int := 0
  tremolo : Int := 0
  slides : Int := 0
  unpitched_slides : Int := 0
  bends : Int := 0
  tapping : Int := 0
  vibrato : Int := 0
  fret_hand_mutes : Int := 0
  slap_pop : Int := 0
  two_finger_picking : Int := 0
  fifths_and_octaves : Int := 0
  syncopation : Int := 0
  bass_pick : Int := 0
  sustain : Int := 0
  path_lead : Int := 0
  path_rhythm : Int := 0
  path_bass : Int := 0
  deriving DecidableEq

/-- Manifest overlay (SngManifestMetadata): every field independently
optional, float fields as rationals. -/
structure ManifestMetadata where
  title : Option String := none
  arrangement : Option String := none
  cent_offset : Option ℚ := none
  song_name_sort : Option String := none
  average_tempo : Option ℚ := none
  artist_name : Option String := none
  artist_name_sort : Option String := none
  album_name : Option String := none
  album_name_sort : Option String := none
  album_year : Option Int := none
  tone_base : Option String := none
  tone_names : List (Option String) := [none, none, none, none]
  arrangement_properties : Option ManifestArrangementProperties := none
  deriving DecidableEq

/-- Average-tempo selection of WriteInstrumentalXml (sng_xml_writer.cpp
lines 352-356): 120 with no manifest, otherwise the manifest tempo with
value_or fallback 0. -/
def averageTempoValue (manifest : Option ManifestMetadata) : ℚ :=
  match manifest with
  | none => 120
  | some m => m.average_tempo.getD 0

/-- The averageTempo element as WriteInstrumentalXml emits it (line 357):
text content is the selected value in fixed three-decimal form. -/
def averageTempoElem (manifest : Option ManifestMetadata) : XmlNode :=
  XmlNode.node "averageTempo" [] [] (fmt3 (averageTempoValue manifest))

/-- HandShapeView of WriteInstrumentalXml (lines 663-668); the end field
is named stop because end is reserved in Lean. -/
structure HandShapeView where
  chord_id : Int := 0
  start : ℚ := 0
  stop : ℚ := 0
  deriving DecidableEq

/-- View list the handShapes fragment builds (lines 670-681): handshape
fingerprints first, then arpeggio fingerprints, in array order. -/
def handShapeViews (arr : Arrangement) : List HandShapeView :=
  arr.fingerprints_handshape.map
    (fun hs => { chord_id := hs.chord_id, start := hs.start_time, stop := hs.end_time })
  ++ arr.fingerprints_arpeggio.map
    (fun arp => { chord_id := arp.chord_id, start := arp.start_time, stop := arp.end_time })

/-- Contract of the std::ranges::sort call (lines 682-684) with comparator
comparing start times: the output is a permutation of the input that is
sorted with respect to the comparator.  The standard does not promise
stability for this algorithm, so any output satisfying this relation is a
possible program behavior. -/
def RangesSortSpec (input out : List HandShapeView) : Prop :=
  input.Perm out ∧ out.Pairwise (fun a b => ¬ b.start < a.start)

/-- The handShape node list emitted for a sorted view list (lines
686-694). -/
def handShapeNodes (out : List HandShapeView) : List XmlNode :=
  out.map (fun hs =>
    XmlNode.node "handShape"
      [("chordId", AttrVal.i hs.chord_id), ("startTime", AttrVal.f3 hs.start),
       ("endTime", AttrVal.f3 hs.stop)] [] "")

end Xmlw

namespace Psarc

/-- Concrete archive refuting the length claim for SNG-routed entries:
version 1.4, zlib tag, two stored entries; the names manifest labels
entry 1 songs/bin/generic/a.sng, and that entry holds a 25-byte SNG
wrapper (magic 0x4A, flags 0, zero IV, one payload byte). -/
def sngRouteFile : List Nat :=
  [0x50, 0x53, 0x41, 0x52, 0, 1, 0, 4, 122, 108, 105, 98,
   0, 0, 0, 84, 0, 0, 0, 24, 0, 0, 0, 2, 0, 0, 0, 64, 0, 0, 0, 0]
  ++ (List.replicate 16 0 ++ [0, 0, 0, 0] ++ [0, 24] ++ [0, 84])
  ++ (List.replicate 16 0 ++ [0, 0, 0, 1] ++ [0, 25] ++ [0, 108])
  ++ [0, 0, 0, 0]
  ++ [115, 111, 110, 103, 115, 47, 98, 105, 110, 47, 103, 101, 110, 101, 114, 105,
      99, 47, 97, 46, 115, 110, 103, 10]
  ++ ([74, 0, 0, 0] ++ [0, 0, 0, 0] ++ List.replicate 16 0 ++ [99])

/-- Concrete archive with the odd TOC entry size 23: one zero-length
entry, field width b = 1, version 1.4, unencrypted. -/
def oddTocFile : List Nat :=
  [0x50, 0x53, 0x41, 0x52, 0, 1, 0, 4, 122, 108, 105, 98,
   0, 0, 0, 56, 0, 0, 0, 23, 0, 0, 0, 1, 0, 0, 0, 64, 0, 0, 0, 0]
  ++ (List.replicate 16 0 ++ [0, 0, 0, 0] ++ [0] ++ [56])
  ++ [0, 0]

/-- Concrete archive whose entry 1 starts at chunk index 999 while the
chunk table holds a single length: Open succeeds because only entry 0 is
extracted eagerly. -/
def wildChunkFile : List Nat :=
  [0x50, 0x53, 0x41, 0x52, 0, 1, 0, 4, 122, 108, 105, 98,
   0, 0, 0, 82, 0, 0, 0, 24, 0, 0, 0, 2, 0, 0, 0, 64, 0, 0, 0, 0]
  ++ (List.replicate 16 0 ++ [0, 0, 0, 0] ++ [0, 1] ++ [0, 82])
  ++ (List.replicate 16 0 ++ [0, 0, 3, 231] ++ [0, 1] ++ [0, 83])
  ++ [0, 0]
  ++ [120, 121]

/-- Plain three-entry state before manifest naming: entry 0 holds the
one-line manifest, entries 1 and 2 are empty and unnamed. -/
def shortManifestState : PsarcState where
  header :=
    { magic := psarcMagic, versionMajor := 1, versionMinor := 4,
      compressionMethod := zlibTag, tocLength := 0, tocEntrySize := 24,
      numFiles := 3, blockSize := 4, archiveFlags := 0 }
  entries := [{ uncompressedSize := 1 }, {}, {}]
  zLengths := [0]
  file := [97]

/-- Small non-SNG single-entry state for the exact-length witness. -/
def plainEntryState : PsarcState where
  header :=
    { magic := psarcMagic, versionMajor := 1, versionMinor := 4,
      compressionMethod := zlibTag, tocLength := 0, tocEntrySize := 24,
      numFiles := 1, blockSize := 8, archiveFlags := 0 }
  entries := [{ name := [104], uncompressedSize := 3 }]
  zLengths := [0]
  file := [1, 2, 3]

/-- SNG wrapper of exactly 24 bytes with the compressed flag set: valid
magic, flags 1, zero IV, empty payload — the failing input of the
unguarded uncompressed-size read in DecryptSng. -/
def sngHeaderOnly : List Nat :=
  [74, 0, 0, 0] ++ [1, 0, 0, 0] ++ List.replicate 16 0

end Psarc

namespace Xmlw

/-- Chord template list whose index 3 is the template of spec scenario 5:
frets -1, 0, 2, 2, 2, -1. -/
def panelChords : List Chord :=
  [{}, {}, {},
   { mask := 0, frets := [-1, 0, 2, 2, 2, -1], fingers := [-1, -1, -1, -1, -1, -1],
     notes := [0, 0, 0, 0, 0, 0], name := "" }]

/-- Chord note of spec scenario 5: mask CHORD + CHORDPANEL, chord id 3,
no chord-notes record. -/
def panelNote : Note :=
  { mask := 0x80000002, chord_id := 3, chord_notes_id := -1, time := 10 }

/-- Arrangement with one handshape and one arpeggio fingerprint sharing
start time 1: the tie that unstable sorting may reorder. -/
def tieArrangement : Arrangement :=
  { fingerprints_handshape := [{ chord_id := 0, start_time := 1, end_time := 2 }],
    fingerprints_arpeggio := [{ chord_id := 1, start_time := 1, end_time := 3 }] }

/-- Manifest overlay carrying no average tempo. -/
def tempolessManifest : ManifestMetadata := {}

/-- Manifest overlay with average tempo 148.5. -/
def tempoManifest : ManifestMetadata := { average_tempo := some (mkRat 297 2) }

end Xmlw

namespace Psarc

/-- Successful chunk assembly produces at least the needed byte count:
the loop only returns when the accumulated result has reached the
entry's uncompressed size. -/
theorem extractLoop_ok_le (M : Oracles) (comp : List Nat) (bs : Nat) (file : List Nat)
    (needed : Nat) :
    ∀ (zs : List Nat) (cur : Nat) (acc r : List Nat),
      extractLoop M comp bs file needed zs cur acc = .ok r → needed ≤ r.length := by
  intro zs
  induction zs with
  | nil =>
    intro cur acc r h
    unfold extractLoop at h
    split at h
    next hle => injection h with h2; subst h2; exact hle
    next => exact absurd h (by simp)
  | cons z rest ih =>
    intro cur acc r h
    unfold extractLoop at h
    split at h
    next hle => injection h with h2; subst h2; exact hle
    next =>
      dsimp only at h
      split at h
      · split at h
        · exact absurd h (by simp)
        · exact ih _ _ _ h
      · split at h
        · exact absurd h (by simp)
        · exact ih _ _ _ h

/-- Claim C1 (amended): for every entry that is not routed through the
SNG decoder, a successful ExtractFileByIndex returns exactly
uncompressed_size bytes.  SNG-routed entries instead return the decoded
SNG payload, whose length can differ. -/
theorem claim_C1_extract_length (M : Oracles) (st : PsarcState) (index : Int) (b : List Nat)
    (hok : extractFileByIndex M st index = .ok b)
    (hname : isSngEntryName (st.entries.getD index.toNat default).name = false) :
    b.length = (st.entries.getD index.toNat default).uncompressedSize := by
  unfold extractFileByIndex at hok
  split at hok
  · exact absurd hok (by simp)
  · dsimp only at hok
    split at hok
    next hz =>
      injection hok with h2
      subst h2
      exact hz.symm
    next hz =>
      cases hloop : extractLoop M st.header.compressionMethod st.header.blockSize st.file
          (st.entries.getD index.toNat default).uncompressedSize
          (st.zLengths.drop (st.entries.getD index.toNat default).startChunkIndex)
          (st.entries.getD index.toNat default).offset [] with
      | error e =>
        rw [hloop] at hok
        exact absurd hok (by simp [Bind.bind, Except.bind])
      | ok raw =>
        rw [hloop] at hok
        simp only [Bind.bind, Except.bind, hname, Bool.false_eq_true, if_false] at hok
        injection hok with h2
        subst h2
        have hle := extractLoop_ok_le M _ _ _ _ _ _ _ _ hloop
        simp only [List.length_take]
        omega

set_option maxRecDepth 100000 in
/-- Witness for claim C1: a three-byte stored entry with a non-SNG name
extracts to exactly its three declared bytes. -/
theorem claim_C1_witness :
    extractFileByIndex zeroOracles plainEntryState 0 = .ok [1, 2, 3] ∧
    isSngEntryName ((plainEntryState.entries.getD 0 default).name) = false ∧
    ∀ b, extractFileByIndex zeroOracles plainEntryState 0 = .ok b →
      b.length = (plainEntryState.entries.getD 0 default).uncompressedSize := by
  refine ⟨rfl, by decide, ?_⟩
  intro b hb
  exact claim_C1_extract_length zeroOracles plainEntryState 0 b hb (by decide)

set_option maxRecDepth 100000 in
/-- Counterexample to claim C1 as stated: the archive sngRouteFile opens
successfully, entry 1 declares 25 uncompressed bytes, and extraction
returns one byte, because the entry name routes the result through
DecryptSng. -/
theorem claim_C1_counterexample :
    ∃ st b, popen zeroOracles sngRouteFile = .ok st ∧
      extractFileByIndex zeroOracles st 1 = .ok b ∧
      b.length ≠ (st.entries.getD 1 default).uncompressedSize := by
  refine ⟨_, _, rfl, rfl, ?_⟩
  decide

end Psarc


namespace Psarc

/-- The TOC entry record loop fails only with its two truncation errors;
in particular it never raises InvalidTocEntrySize. -/
theorem readTocEntries_error (b : Nat) (toc : List Nat) :
    ∀ (n pos : Nat) (e : PsarcError), readTocEntries b toc n pos = .error e →
      e = .tocTruncatedEntry ∨ e = .tocTruncatedLength := by
  intro n
  induction n with
  | zero => intro pos e h; exact absurd h (by simp [readTocEntries])
  | succ k ih =>
    intro pos e h
    unfold readTocEntries at h
    dsimp only at h
    split at h
    · injection h with h2; exact Or.inl h2.symm
    · split at h
      · injection h with h2; exact Or.inr h2.symm
      · split at h
        next e2 hrec =>
          injection h with h2
          subst h2
          exact ih _ _ hrec
        next hrec => exact absurd h (by simp)

/-- The TOC entry record loop produces exactly the requested number of
entries (m_entries.resize(num_files) followed by a full fill). -/
theorem readTocEntries_length (b : Nat) (toc : List Nat) :
    ∀ (n pos : Nat) (es : List FileEntry) (q : Nat),
      readTocEntries b toc n pos = .ok (es, q) → es.length = n := by
  intro n
  induction n with
  | zero =>
    intro pos es q h
    unfold readTocEntries at h
    injection h with h2
    have hlen := congrArg (fun p : List FileEntry × Nat => p.1.length) h2
    simpa using hlen.symm
  | succ k ih =>
    intro pos es q h
    unfold readTocEntries at h
    dsimp only at h
    split at h
    · exact absurd h (by simp)
    · split at h
      · exact absurd h (by simp)
      · split at h
        next e2 hrec => exact absurd h (by simp)
        next rest finalPos hrec =>
          injection h with h2
          have hlen := congrArg (fun p : List FileEntry × Nat => p.1.length) h2
          simp only [List.length_cons] at hlen
          rw [← hlen]
          simp [ih _ _ _ hrec]

/-- Claim C4 (amended): with the TOC bytes present, ReadToc rejects the
archive with InvalidTocEntrySize exactly when the computed field width
b = (int(toc_entry_size) - 20) / 2 lies outside 1..8; the parity of
toc_entry_size is never checked. -/
theorem claim_C4_toc_entry_size (M : Oracles) (file : List Nat) (h : Header)
    (hread : 32 + sub32 h.tocLength 32 ≤ file.length) :
    readToc M file h = .error .invalidTocEntrySize ↔
      (bNumOf h.tocEntrySize < 1 ∨ 8 < bNumOf h.tocEntrySize) := by
  unfold readToc
  rw [readExact, if_neg (by omega)]
  simp only [Bind.bind, Except.bind]
  constructor
  · intro he
    by_contra hb
    rw [if_neg hb] at he
    revert he
    split
    next e2 hrec =>
      intro he
      injection he with h2
      rcases readTocEntries_error _ _ _ _ _ hrec with h3 | h3 <;> simp [h3] at h2
    next hrec => intro he; exact absurd he (by simp [pure, Except.pure])
  · intro hb
    rw [if_pos hb]
    rfl

/-- ReadToc delivers exactly num_files entries. -/
theorem readToc_entries_length (M : Oracles) (file : List Nat) (h : Header)
    (es : List FileEntry) (z : List Nat) (hok : readToc M file h = .ok (es, z)) :
    es.length = h.numFiles := by
  unfold readToc at hok
  revert hok
  unfold readExact
  split
  · intro hok; exact absurd hok (by simp [Bind.bind, Except.bind])
  · simp only [Bind.bind, Except.bind]
    split
    · intro hok; exact absurd hok (by simp [throw, throwThe, MonadExceptOf.throw])
    · split
      next p hrec => intro hok; exact absurd hok (by simp [pure, Except.pure])
      next v hrec =>
        intro hok
        simp only [pure, Except.pure] at hok
        injection hok with h3
        have hlen := congrArg (fun p : List FileEntry × List Nat => p.1.length) h3
        dsimp only at hlen
        rw [← hlen]
        obtain ⟨es2, pos2⟩ := v
        exact readTocEntries_length _ _ _ _ _ _ hrec

/-- Name assignment preserves the number of entries. -/
theorem assignTail_length (rest : List FileEntry) :
    ∀ names : List (List Nat), (assignTail rest names).length = rest.length := by
  induction rest with
  | nil => intro names; cases names <;> rfl
  | cons e r ih =>
    intro names
    cases names with
    | nil => rfl
    | cons n ns => simp [assignTail, ih ns]

/-- Entry naming preserves the number of entries. -/
theorem assignNames_length (entries : List FileEntry) (names : List (List Nat)) :
    (assignNames entries names).length = entries.length := by
  cases entries with
  | nil => rfl
  | cons e rest => simp [assignNames, assignTail_length]

/-- Inversion of a successful Except bind. -/
theorem exceptBind_ok {ε α β : Type} {x : Except ε α} {f : α → Except ε β} {b : β}
    (h : x >>= f = .ok b) : ∃ a, x = .ok a ∧ f a = .ok b := by
  cases x with
  | error e => exact absurd h (by simp [Bind.bind, Except.bind])
  | ok a => exact ⟨a, rfl, by simpa [Bind.bind, Except.bind] using h⟩

/-- ReadManifest keeps the header and the number of entries. -/
theorem readManifest_ok (M : Oracles) (st0 st1 : PsarcState)
    (hok : readManifest M st0 = .ok st1) :
    st1.header = st0.header ∧ st1.entries.length = st0.entries.length := by
  unfold readManifest at hok
  split at hok
  · exact Except.noConfusion hok
  · obtain ⟨m, hm, hok2⟩ := exceptBind_ok hok
    simp only [pure, Except.pure] at hok2
    injection hok2 with h2
    subst h2
    exact ⟨rfl, by simp [assignNames_length]⟩

/-- Open delivers a state with exactly file-count entries. -/
theorem popen_entries_length (M : Oracles) (file : List Nat) (st : PsarcState)
    (hok : popen M file = .ok st) : st.entries.length = st.header.numFiles := by
  unfold popen at hok
  obtain ⟨h, hh, hok2⟩ := exceptBind_ok hok
  obtain ⟨p, ht, hok3⟩ := exceptBind_ok hok2
  obtain ⟨es, z⟩ := p
  obtain ⟨hH, hL⟩ := readManifest_ok M _ _ hok3
  have hlen := readToc_entries_length M file h es z ht
  rw [hL, hH]
  exact hlen

set_option maxRecDepth 100000 in
/-- Counterexample to claim C4 as stated: the archive oddTocFile opens
successfully although its toc_entry_size is 23, which is not congruent to
20 modulo 2; the source never checks the parity. -/
theorem claim_C4_counterexample :
    ∃ st, popen zeroOracles oddTocFile = .ok st ∧
      st.header.tocEntrySize = 23 ∧ st.header.tocEntrySize % 2 = 1 := by
  exact ⟨_, rfl, rfl, rfl⟩

set_option maxRecDepth 100000 in
/-- Witness for claim C4: a header with toc_entry_size 18 has b = -1 and
is rejected, and one with toc_entry_size 24 has b = 2 and is not. -/
theorem claim_C4_witness :
    (readToc zeroOracles (List.replicate 40 0)
      { magic := psarcMagic, versionMajor := 1, versionMinor := 4,
        compressionMethod := zlibTag, tocLength := 36, tocEntrySize := 18,
        numFiles := 0, blockSize := 64, archiveFlags := 0 } =
      .error .invalidTocEntrySize) ∧
    (readToc zeroOracles (List.replicate 40 0)
      { magic := psarcMagic, versionMajor := 1, versionMinor := 4,
        compressionMethod := zlibTag, tocLength := 36, tocEntrySize := 24,
        numFiles := 0, blockSize := 64, archiveFlags := 0 } ≠
      .error .invalidTocEntrySize) := by
  constructor
  · exact (claim_C4_toc_entry_size zeroOracles (List.replicate 40 0) _ (by decide)).2
      (by decide)
  · intro hcontra
    have hb := (claim_C4_toc_entry_size zeroOracles (List.replicate 40 0) _ (by decide)).1
      hcontra
    revert hb
    decide

/-- Claim C5 (amended): a successful Open yields exactly file-count
entries; the per-entry chunk-range condition is not established by Open —
it is enforced lazily, the assembly loop failing with
ChunkIndexOutOfRange when the chunk table is exhausted early. -/
theorem claim_C5_open_invariant (M : Oracles) (file : List Nat) (st : PsarcState)
    (hok : popen M file = .ok st) :
    st.entries.length = st.header.numFiles ∧
    (∀ (comp : List Nat) (bs : Nat) (f : List Nat) (needed cur : Nat) (acc : List Nat),
      acc.length < needed →
      extractLoop M comp bs f needed [] cur acc = .error .chunkIndexOutOfRange) := by
  refine ⟨popen_entries_length M file st hok, ?_⟩
  intro comp bs f needed cur acc hlt
  unfold extractLoop
  rw [if_neg (by omega)]

set_option maxRecDepth 100000 in
/-- Witness for claim C5 on the concrete archive oddTocFile. -/
theorem claim_C5_witness :
    ∃ st, popen zeroOracles oddTocFile = .ok st ∧
      st.entries.length = st.header.numFiles := by
  refine ⟨_, rfl, ?_⟩
  exact (claim_C5_open_invariant zeroOracles oddTocFile _ rfl).1

set_option maxRecDepth 100000 in
/-- Counterexample to claim C5 as stated: wildChunkFile opens
successfully although its entry 1 starts at chunk 999 with one block
needed while the chunk table holds a single length. -/
theorem claim_C5_counterexample :
    ∃ st, popen zeroOracles wildChunkFile = .ok st ∧
      ¬ (∀ e ∈ st.entries,
        e.startChunkIndex + specBlocksNeeded st.header.blockSize e.uncompressedSize ≤
          st.zLengths.length) := by
  refine ⟨_, rfl, ?_⟩
  decide

/-- Claim C6: a chunk whose bytes fail all three zlib window attempts and
the lzma decoder is appended verbatim, whatever the compression tag, and
the assembly loop converts decompression failure into raw passthrough
rather than an error: its step on a readable nonzero chunk always
recurses, never throws. -/
theorem claim_C6_raw_fallback (M : Oracles) (comp chunk : List Nat) (expected : Nat)
    (hz : ∀ wb ∈ windowBitsList, M.inflate wb chunk expected = none)
    (hl : M.lzmaDec chunk expected = none) :
    decompressChunk M comp chunk expected = chunk ∧
    (∀ (bs : Nat) (file : List Nat) (needed : Nat) (zs : List Nat) (cursor : Nat)
      (acc : List Nat) (z : Nat), z ≠ 0 → acc.length < needed → cursor + z ≤ file.length →
      extractLoop M comp bs file needed (z :: zs) cursor acc =
        extractLoop M comp bs file needed zs (cursor + z)
          (acc ++ decompressChunk M comp (bytesAt file cursor z)
            (min (needed - acc.length) bs))) := by
  have h15 := hz 15 (by simp [windowBitsList])
  have h15n := hz (-15) (by simp [windowBitsList])
  have h47 := hz 47 (by simp [windowBitsList])
  have hzl : decompressZlib M chunk expected = [] := by
    unfold decompressZlib
    split
    · rfl
    · simp [windowBitsList, List.findSome?_cons, h15, h15n, h47]
  have hlz : decompressLzma M chunk expected = [] := by
    unfold decompressLzma
    split
    · rfl
    · simp [hl]
  constructor
  · unfold decompressChunk
    split
    · simp [hzl]
    · split
      · simp [hlz]
      · simp [hzl, hlz]
  · intro bs file needed zs cursor acc z hz0 hlt hbound
    conv =>
      lhs
      unfold extractLoop
    rw [if_neg (by omega)]
    dsimp only
    rw [if_neg hz0, if_neg (by omega)]

/-- Witness for claim C6: the seven-byte chunk 1..7 fails the oracle
decompressors of zeroOracles and lands verbatim in the output. -/
theorem claim_C6_witness :
    decompressChunk zeroOracles zlibTag [1, 2, 3, 4, 5, 6, 7] 5 = [1, 2, 3, 4, 5, 6, 7] := by
  exact (claim_C6_raw_fallback zeroOracles zlibTag [1, 2, 3, 4, 5, 6, 7] 5
    (by intro wb _; rfl) rfl).1

/-- Claim C10: DecryptSng reads a 32-bit size from the decrypted payload
without a bounds check; on the 24-byte wrapper with the compressed flag
set the payload is empty and the read is out of bounds (observable in
the model as sngSizeReadOutOfBounds). -/
theorem claim_C10_unguarded_read :
    decryptSng zeroOracles sngHeaderOnly = .error .sngSizeReadOutOfBounds := rfl

end Psarc


namespace Sng

/-- rpure is extension stable. -/
theorem stable_rpure {α : Type} (a : α) : Stable (rpure a) := by
  intro d extra p x q h
  exact h

/-- pure is extension stable. -/
theorem stable_pureRd {α : Type} (a : α) : Stable (pure a : Rd α) :=
  stable_rpure a

/-- rbind preserves extension stability. -/
theorem stable_rbind {α β : Type} {m : Rd α} {f : α → Rd β}
    (hm : Stable m) (hf : ∀ a, Stable (f a)) : Stable (rbind m f) := by
  intro d extra p x q h
  unfold rbind at h ⊢
  cases hm1 : m d p with
  | error e => rw [hm1] at h; exact absurd h (by simp)
  | ok r =>
    obtain ⟨a, p1⟩ := r
    rw [hm1] at h
    dsimp only at h
    rw [hm d extra p a p1 hm1]
    dsimp only
    exact hf a d extra p1 x q h

/-- Monadic bind preserves extension stability. -/
theorem stable_bindRd {α β : Type} {m : Rd α} {f : α → Rd β}
    (hm : Stable m) (hf : ∀ a, Stable (f a)) : Stable (m >>= f) :=
  stable_rbind hm hf

/-- The conditional preserves extension stability. -/
theorem stable_iteRd {α : Type} (c : Prop) [Decidable c] {m1 m2 : Rd α}
    (h1 : Stable m1) (h2 : Stable m2) : Stable (if c then m1 else m2) := by
  split <;> assumption

/-- The bounds-checked byte read is extension stable: a read that
succeeded within the original buffer returns the same bytes and the same
position on the extended buffer. -/
theorem stable_readBytes (n : Nat) : Stable (readBytes n) := by
  intro d extra p a q h
  unfold readBytes at h ⊢
  split at h
  · exact absurd h (by simp)
  next hle =>
    rw [if_neg (by rw [List.length_append]; omega)]
    have hb : bytesAt (d ++ extra) p n = bytesAt d p n := by
      unfold bytesAt
      rw [List.drop_append_of_le_length (by omega),
        List.take_append_of_le_length (by rw [List.length_drop]; omega)]
    rw [hb]
    exact h

/-- ReadUInt8 is extension stable. -/
theorem stable_readU8 : Stable readU8 :=
  stable_rbind (stable_readBytes 1) (fun _ => stable_rpure _)

/-- ReadInt8 is extension stable. -/
theorem stable_readI8 : Stable readI8 :=
  stable_rbind (stable_readBytes 1) (fun _ => stable_rpure _)

/-- ReadUInt16 is extension stable. -/
theorem stable_readU16 : Stable readU16 :=
  stable_rbind (stable_readBytes 2) (fun _ => stable_rpure _)

/-- ReadInt16 is extension stable. -/
theorem stable_readI16 : Stable readI16 :=
  stable_rbind (stable_readBytes 2) (fun _ => stable_rpure _)

/-- ReadUInt32 is extension stable. -/
theorem stable_readU32 : Stable readU32 :=
  stable_rbind (stable_readBytes 4) (fun _ => stable_rpure _)

/-- ReadInt32 is extension stable. -/
theorem stable_readI32 : Stable readI32 :=
  stable_rbind (stable_readBytes 4) (fun _ => stable_rpure _)

/-- ReadFloat is extension stable. -/
theorem stable_readF32 : Stable readF32 :=
  stable_rbind (stable_readBytes 4) (fun _ => stable_rpure _)

/-- ReadDouble is extension stable. -/
theorem stable_readF64 : Stable readF64 :=
  stable_rbind (stable_readBytes 8) (fun _ => stable_rpure _)

/-- ReadFixedString is extension stable. -/
theorem stable_readFixedString (n : Nat) : Stable (readFixedString n) :=
  stable_rbind (stable_readBytes n) (fun _ => stable_rpure _)

/-- Section counts are extension stable. -/
theorem stable_readCount : Stable readCount := stable_readU32

/-- The record loop preserves extension stability. -/
theorem stable_rreplicate {α : Type} {m : Rd α} (hm : Stable m) (n : Nat) :
    Stable (rreplicate m n) := by
  induction n with
  | zero => exact stable_rpure _
  | succ k ih =>
    exact stable_rbind hm (fun a => stable_rbind ih (fun as => stable_rpure _))

/-- ReadBendValue is extension stable. -/
theorem stable_readBendValue : Stable readBendValue := by
  unfold readBendValue
  repeat
    first
    | exact stable_readF32
    | exact stable_readI16
    | exact stable_readU8
    | apply stable_bindRd
    | apply stable_pureRd
    | intro x

/-- ReadFretByte is extension stable. -/
theorem stable_readFretByte : Stable readFretByte := by
  unfold readFretByte
  repeat
    first
    | exact stable_readCount
    | exact stable_readF32
    | exact stable_readF64
    | exact stable_readU8
    | exact stable_readI8
    | exact stable_readU16
    | exact stable_readI16
    | exact stable_readU32
    | exact stable_readI32
    | exact stable_readBendValue
    | apply stable_readFixedString
    | apply stable_rreplicate
    | apply stable_bindRd
    | apply stable_iteRd
    | apply stable_pureRd
    | intro x

/-- ReadBpms is extension stable. -/
theorem stable_readBpms : Stable readBpms := by
  unfold readBpms
  repeat
    first
    | exact stable_readCount
    | exact stable_readF32
    | exact stable_readF64
    | exact stable_readU8
    | exact stable_readI8
    | exact stable_readU16
    | exact stable_readI16
    | exact stable_readU32
    | exact stable_readI32
    | exact stable_readBendValue
    | exact stable_readFretByte
    | apply stable_readFixedString
    | apply stable_rreplicate
    | apply stable_bindRd
    | apply stable_iteRd
    | apply stable_pureRd
    | intro x

/-- ReadPhrases is extension stable. -/
theorem stable_readPhrases : Stable readPhrases := by
  unfold readPhrases
  repeat
    first
    | exact stable_readCount
    | exact stable_readF32
    | exact stable_readF64
    | exact stable_readU8
    | exact stable_readI8
    | exact stable_readU16
    | exact stable_readI16
    | exact stable_readU32
    | exact stable_readI32
    | exact stable_readBendValue
    | exact stable_readFretByte
    | exact stable_readBpms
    | apply stable_readFixedString
    | apply stable_rreplicate
    | apply stable_bindRd
    | apply stable_iteRd
    | apply stable_pureRd
    | intro x

/-- ReadChords is extension stable. -/
theorem stable_readChords : Stable readChords := by
  unfold readChords
  repeat
    first
    | exact stable_readCount
    | exact stable_readF32
    | exact stable_readF64
    | exact stable_readU8
    | exact stable_readI8
    | exact stable_readU16
    | exact stable_readI16
    | exact stable_readU32
    | exact stable_readI32
    | exact stable_readBendValue
    | exact stable_readFretByte
    | exact stable_readBpms
    | exact stable_readPhrases
    | apply stable_readFixedString
    | apply stable_rreplicate
    | apply stable_bindRd
    | apply stable_iteRd
    | apply stable_pureRd
    | intro x

/-- ReadBendData is extension stable. -/
theorem stable_readBendData : Stable readBendData := by
  unfold readBendData
  repeat
    first
    | exact stable_readCount
    | exact stable_readF32
    | exact stable_readF64
    | exact stable_readU8
    | exact stable_readI8
    | exact stable_readU16
    | exact stable_readI16
    | exact stable_readU32
    | exact stable_readI32
    | exact stable_readBendValue
    | exact stable_readFretByte
    | exact stable_readBpms
    | exact stable_readPhrases
    | exact stable_readChords
    | apply stable_readFixedString
    | apply stable_rreplicate
    | apply stable_bindRd
    | apply stable_iteRd
    | apply stable_pureRd
    | intro x

/-- ReadChordNotes is extension stable. -/
theorem stable_readChordNotes : Stable readChordNotes := by
  unfold readChordNotes
  repeat
    first
    | exact stable_readCount
    | exact stable_readF32
    | exact stable_readF64
    | exact stable_readU8
    | exact stable_readI8
    | exact stable_readU16
    | exact stable_readI16
    | exact stable_readU32
    | exact stable_readI32
    | exact stable_readBendValue
    | exact stable_readFretByte
    | exact stable_readBpms
    | exact stable_readPhrases
    | exact stable_readChords
    | exact stable_readBendData
    | apply stable_readFixedString
    | apply stable_rreplicate
    | apply stable_bindRd
    | apply stable_iteRd
    | apply stable_pureRd
    | intro x

/-- ReadVocals is extension stable. -/
theorem stable_readVocals : Stable readVocals := by
  unfold readVocals
  repeat
    first
    | exact stable_readCount
    | exact stable_readF32
    | exact stable_readF64
    | exact stable_readU8
    | exact stable_readI8
    | exact stable_readU16
    | exact stable_readI16
    | exact stable_readU32
    | exact stable_readI32
    | exact stable_readBendValue
    | exact stable_readFretByte
    | exact stable_readBpms
    | exact stable_readPhrases
    | exact stable_readChords
    | exact stable_readBendData
    | exact stable_readChordNotes
    | apply stable_readFixedString
    | apply stable_rreplicate
    | apply stable_bindRd
    | apply stable_iteRd
    | apply stable_pureRd
    | intro x

/-- ReadSymbolsHeaders is extension stable. -/
theorem stable_readSymbolsHeaders : Stable readSymbolsHeaders := by
  unfold readSymbolsHeaders
  repeat
    first
    | exact stable_readCount
    | exact stable_readF32
    | exact stable_readF64
    | exact stable_readU8
    | exact stable_readI8
    | exact stable_readU16
    | exact stable_readI16
    | exact stable_readU32
    | exact stable_readI32
    | exact stable_readBendValue
    | exact stable_readFretByte
    | exact stable_readBpms
    | exact stable_readPhrases
    | exact stable_readChords
    | exact stable_readBendData
    | exact stable_readChordNotes
    | exact stable_readVocals
    | apply stable_readFixedString
    | apply stable_rreplicate
    | apply stable_bindRd
    | apply stable_iteRd
    | apply stable_pureRd
    | intro x

/-- ReadSymbolsTextures is extension stable. -/
theorem stable_readSymbolsTextures : Stable readSymbolsTextures := by
  unfold readSymbolsTextures
  repeat
    first
    | exact stable_readCount
    | exact stable_readF32
    | exact stable_readF64
    | exact stable_readU8
    | exact stable_readI8
    | exact stable_readU16
    | exact stable_readI16
    | exact stable_readU32
    | exact stable_readI32
    | exact stable_readBendValue
    | exact stable_readFretByte
    | exact stable_readBpms
    | exact stable_readPhrases
    | exact stable_readChords
    | exact stable_readBendData
    | exact stable_readChordNotes
    | exact stable_readVocals
    | exact stable_readSymbolsHeaders
    | apply stable_readFixedString
    | apply stable_rreplicate
    | apply stable_bindRd
    | apply stable_iteRd
    | apply stable_pureRd
    | intro x

/-- ReadSymbolDefinitions is extension stable. -/
theorem stable_readSymbolDefinitions : Stable readSymbolDefinitions := by
  unfold readSymbolDefinitions
  repeat
    first
    | exact stable_readCount
    | exact stable_readF32
    | exact stable_readF64
    | exact stable_readU8
    | exact stable_readI8
    | exact stable_readU16
    | exact stable_readI16
    | exact stable_readU32
    | exact stable_readI32
    | exact stable_readBendValue
    | exact stable_readFretByte
    | exact stable_readBpms
    | exact stable_readPhrases
    | exact stable_readChords
    | exact stable_readBendData
    | exact stable_readChordNotes
    | exact stable_readVocals
    | exact stable_readSymbolsHeaders
    | exact stable_readSymbolsTextures
    | apply stable_readFixedString
    | apply stable_rreplicate
    | apply stable_bindRd
    | apply stable_iteRd
    | apply stable_pureRd
    | intro x

/-- ReadPhraseIterations is extension stable. -/
theorem stable_readPhraseIterations : Stable readPhraseIterations := by
  unfold readPhraseIterations
  repeat
    first
    | exact stable_readCount
    | exact stable_readF32
    | exact stable_readF64
    | exact stable_readU8
    | exact stable_readI8
    | exact stable_readU16
    | exact stable_readI16
    | exact stable_readU32
    | exact stable_readI32
    | exact stable_readBendValue
    | exact stable_readFretByte
    | exact stable_readBpms
    | exact stable_readPhrases
    | exact stable_readChords
    | exact stable_readBendData
    | exact stable_readChordNotes
    | exact stable_readVocals
    | exact stable_readSymbolsHeaders
    | exact stable_readSymbolsTextures
    | exact stable_readSymbolDefinitions
    | apply stable_readFixedString
    | apply stable_rreplicate
    | apply stable_bindRd
    | apply stable_iteRd
    | apply stable_pureRd
    | intro x

/-- ReadPhraseExtraInfos is extension stable. -/
theorem stable_readPhraseExtraInfos : Stable readPhraseExtraInfos := by
  unfold readPhraseExtraInfos
  repeat
    first
    | exact stable_readCount
    | exact stable_readF32
    | exact stable_readF64
    | exact stable_readU8
    | exact stable_readI8
    | exact stable_readU16
    | exact stable_readI16
    | exact stable_readU32
    | exact stable_readI32
    | exact stable_readBendValue
    | exact stable_readFretByte
    | exact stable_readBpms
    | exact stable_readPhrases
    | exact stable_readChords
    | exact stable_readBendData
    | exact stable_readChordNotes
    | exact stable_readVocals
    | exact stable_readSymbolsHeaders
    | exact stable_readSymbolsTextures
    | exact stable_readSymbolDefinitions
    | exact stable_readPhraseIterations
    | apply stable_readFixedString
    | apply stable_rreplicate
    | apply stable_bindRd
    | apply stable_iteRd
    | apply stable_pureRd
    | intro x

/-- ReadNLinkedDifficulties is extension stable. -/
theorem stable_readNLinkedDifficulties : Stable readNLinkedDifficulties := by
  unfold readNLinkedDifficulties
  repeat
    first
    | exact stable_readCount
    | exact stable_readF32
    | exact stable_readF64
    | exact stable_readU8
    | exact stable_readI8
    | exact stable_readU16
    | exact stable_readI16
    | exact stable_readU32
    | exact stable_readI32
    | exact stable_readBendValue
    | exact stable_readFretByte
    | exact stable_readBpms
    | exact stable_readPhrases
    | exact stable_readChords
    | exact stable_readBendData
    | exact stable_readChordNotes
    | exact stable_readVocals
    | exact stable_readSymbolsHeaders
    | exact stable_readSymbolsTextures
    | exact stable_readSymbolDefinitions
    | exact stable_readPhraseIterations
    | exact stable_readPhraseExtraInfos
    | apply stable_readFixedString
    | apply stable_rreplicate
    | apply stable_bindRd
    | apply stable_iteRd
    | apply stable_pureRd
    | intro x

/-- ReadActions is extension stable. -/
theorem stable_readActions : Stable readActions := by
  unfold readActions
  repeat
    first
    | exact stable_readCount
    | exact stable_readF32
    | exact stable_readF64
    | exact stable_readU8
    | exact stable_readI8
    | exact stable_readU16
    | exact stable_readI16
    | exact stable_readU32
    | exact stable_readI32
    | exact stable_readBendValue
    | exact stable_readFretByte
    | exact stable_readBpms
    | exact stable_readPhrases
    | exact stable_readChords
    | exact stable_readBendData
    | exact stable_readChordNotes
    | exact stable_readVocals
    | exact stable_readSymbolsHeaders
    | exact stable_readSymbolsTextures
    | exact stable_readSymbolDefinitions
    | exact stable_readPhraseIterations
    | exact stable_readPhraseExtraInfos
    | exact stable_readNLinkedDifficulties
    | apply stable_readFixedString
    | apply stable_rreplicate
    | apply stable_bindRd
    | apply stable_iteRd
    | apply stable_pureRd
    | intro x

/-- ReadEvents is extension stable. -/
theorem stable_readEvents : Stable readEvents := by
  unfold readEvents
  repeat
    first
    | exact stable_readCount
    | exact stable_readF32
    | exact stable_readF64
    | exact stable_readU8
    | exact stable_readI8
    | exact stable_readU16
    | exact stable_readI16
    | exact stable_readU32
    | exact stable_readI32
    | exact stable_readBendValue
    | exact stable_readFretByte
    | exact stable_readBpms
    | exact stable_readPhrases
    | exact stable_readChords
    | exact stable_readBendData
    | exact stable_readChordNotes
    | exact stable_readVocals
    | exact stable_readSymbolsHeaders
    | exact stable_readSymbolsTextures
    | exact stable_readSymbolDefinitions
    | exact stable_readPhraseIterations
    | exact stable_readPhraseExtraInfos
    | exact stable_readNLinkedDifficulties
    | exact stable_readActions
    | apply stable_readFixedString
    | apply stable_rreplicate
    | apply stable_bindRd
    | apply stable_iteRd
    | apply stable_pureRd
    | intro x

/-- ReadTones is extension stable. -/
theorem stable_readTones : Stable readTones := by
  unfold readTones
  repeat
    first
    | exact stable_readCount
    | exact stable_readF32
    | exact stable_readF64
    | exact stable_readU8
    | exact stable_readI8
    | exact stable_readU16
    | exact stable_readI16
    | exact stable_readU32
    | exact stable_readI32
    | exact stable_readBendValue
    | exact stable_readFretByte
    | exact stable_readBpms
    | exact stable_readPhrases
    | exact stable_readChords
    | exact stable_readBendData
    | exact stable_readChordNotes
    | exact stable_readVocals
    | exact stable_readSymbolsHeaders
    | exact stable_readSymbolsTextures
    | exact stable_readSymbolDefinitions
    | exact stable_readPhraseIterations
    | exact stable_readPhraseExtraInfos
    | exact stable_readNLinkedDifficulties
    | exact stable_readActions
    | exact stable_readEvents
    | apply stable_readFixedString
    | apply stable_rreplicate
    | apply stable_bindRd
    | apply stable_iteRd
    | apply stable_pureRd
    | intro x

/-- ReadDnas is extension stable. -/
theorem stable_readDnas : Stable readDnas := by
  unfold readDnas
  repeat
    first
    | exact stable_readCount
    | exact stable_readF32
    | exact stable_readF64
    | exact stable_readU8
    | exact stable_readI8
    | exact stable_readU16
    | exact stable_readI16
    | exact stable_readU32
    | exact stable_readI32
    | exact stable_readBendValue
    | exact stable_readFretByte
    | exact stable_readBpms
    | exact stable_readPhrases
    | exact stable_readChords
    | exact stable_readBendData
    | exact stable_readChordNotes
    | exact stable_readVocals
    | exact stable_readSymbolsHeaders
    | exact stable_readSymbolsTextures
    | exact stable_readSymbolDefinitions
    | exact stable_readPhraseIterations
    | exact stable_readPhraseExtraInfos
    | exact stable_readNLinkedDifficulties
    | exact stable_readActions
    | exact stable_readEvents
    | exact stable_readTones
    | apply stable_readFixedString
    | apply stable_rreplicate
    | apply stable_bindRd
    | apply stable_iteRd
    | apply stable_pureRd
    | intro x

/-- ReadSections is extension stable. -/
theorem stable_readSections : Stable readSections := by
  unfold readSections
  repeat
    first
    | exact stable_readCount
    | exact stable_readF32
    | exact stable_readF64
    | exact stable_readU8
    | exact stable_readI8
    | exact stable_readU16
    | exact stable_readI16
    | exact stable_readU32
    | exact stable_readI32
    | exact stable_readBendValue
    | exact stable_readFretByte
    | exact stable_readBpms
    | exact stable_readPhrases
    | exact stable_readChords
    | exact stable_readBendData
    | exact stable_readChordNotes
    | exact stable_readVocals
    | exact stable_readSymbolsHeaders
    | exact stable_readSymbolsTextures
    | exact stable_readSymbolDefinitions
    | exact stable_readPhraseIterations
    | exact stable_readPhraseExtraInfos
    | exact stable_readNLinkedDifficulties
    | exact stable_readActions
    | exact stable_readEvents
    | exact stable_readTones
    | exact stable_readDnas
    | apply stable_readFixedString
    | apply stable_rreplicate
    | apply stable_bindRd
    | apply stable_iteRd
    | apply stable_pureRd
    | intro x

/-- ReadNote is extension stable. -/
theorem stable_readNote : Stable readNote := by
  unfold readNote
  repeat
    first
    | exact stable_readCount
    | exact stable_readF32
    | exact stable_readF64
    | exact stable_readU8
    | exact stable_readI8
    | exact stable_readU16
    | exact stable_readI16
    | exact stable_readU32
    | exact stable_readI32
    | exact stable_readBendValue
    | exact stable_readFretByte
    | exact stable_readBpms
    | exact stable_readPhrases
    | exact stable_readChords
    | exact stable_readBendData
    | exact stable_readChordNotes
    | exact stable_readVocals
    | exact stable_readSymbolsHeaders
    | exact stable_readSymbolsTextures
    | exact stable_readSymbolDefinitions
    | exact stable_readPhraseIterations
    | exact stable_readPhraseExtraInfos
    | exact stable_readNLinkedDifficulties
    | exact stable_readActions
    | exact stable_readEvents
    | exact stable_readTones
    | exact stable_readDnas
    | exact stable_readSections
    | apply stable_readFixedString
    | apply stable_rreplicate
    | apply stable_bindRd
    | apply stable_iteRd
    | apply stable_pureRd
    | intro x

/-- ReadAnchor is extension stable. -/
theorem stable_readAnchor : Stable readAnchor := by
  unfold readAnchor
  repeat
    first
    | exact stable_readCount
    | exact stable_readF32
    | exact stable_readF64
    | exact stable_readU8
    | exact stable_readI8
    | exact stable_readU16
    | exact stable_readI16
    | exact stable_readU32
    | exact stable_readI32
    | exact stable_readBendValue
    | exact stable_readFretByte
    | exact stable_readBpms
    | exact stable_readPhrases
    | exact stable_readChords
    | exact stable_readBendData
    | exact stable_readChordNotes
    | exact stable_readVocals
    | exact stable_readSymbolsHeaders
    | exact stable_readSymbolsTextures
    | exact stable_readSymbolDefinitions
    | exact stable_readPhraseIterations
    | exact stable_readPhraseExtraInfos
    | exact stable_readNLinkedDifficulties
    | exact stable_readActions
    | exact stable_readEvents
    | exact stable_readTones
    | exact stable_readDnas
    | exact stable_readSections
    | exact stable_readNote
    | apply stable_readFixedString
    | apply stable_rreplicate
    | apply stable_bindRd
    | apply stable_iteRd
    | apply stable_pureRd
    | intro x

/-- ReadAnchorExtension is extension stable. -/
theorem stable_readAnchorExtension : Stable readAnchorExtension := by
  unfold readAnchorExtension
  repeat
    first
    | exact stable_readCount
    | exact stable_readF32
    | exact stable_readF64
    | exact stable_readU8
    | exact stable_readI8
    | exact stable_readU16
    | exact stable_readI16
    | exact stable_readU32
    | exact stable_readI32
    | exact stable_readBendValue
    | exact stable_readFretByte
    | exact stable_readBpms
    | exact stable_readPhrases
    | exact stable_readChords
    | exact stable_readBendData
    | exact stable_readChordNotes
    | exact stable_readVocals
    | exact stable_readSymbolsHeaders
    | exact stable_readSymbolsTextures
    | exact stable_readSymbolDefinitions
    | exact stable_readPhraseIterations
    | exact stable_readPhraseExtraInfos
    | exact stable_readNLinkedDifficulties
    | exact stable_readActions
    | exact stable_readEvents
    | exact stable_readTones
    | exact stable_readDnas
    | exact stable_readSections
    | exact stable_readNote
    | exact stable_readAnchor
    | apply stable_readFixedString
    | apply stable_rreplicate
    | apply stable_bindRd
    | apply stable_iteRd
    | apply stable_pureRd
    | intro x

/-- ReadFingerprint is extension stable. -/
theorem stable_readFingerprint : Stable readFingerprint := by
  unfold readFingerprint
  repeat
    first
    | exact stable_readCount
    | exact stable_readF32
    | exact stable_readF64
    | exact stable_readU8
    | exact stable_readI8
    | exact stable_readU16
    | exact stable_readI16
    | exact stable_readU32
    | exact stable_readI32
    | exact stable_readBendValue
    | exact stable_readFretByte
    | exact stable_readBpms
    | exact stable_readPhrases
    | exact stable_readChords
    | exact stable_readBendData
    | exact stable_readChordNotes
    | exact stable_readVocals
    | exact stable_readSymbolsHeaders
    | exact stable_readSymbolsTextures
    | exact stable_readSymbolDefinitions
    | exact stable_readPhraseIterations
    | exact stable_readPhraseExtraInfos
    | exact stable_readNLinkedDifficulties
    | exact stable_readActions
    | exact stable_readEvents
    | exact stable_readTones
    | exact stable_readDnas
    | exact stable_readSections
    | exact stable_readNote
    | exact stable_readAnchor
    | exact stable_readAnchorExtension
    | apply stable_readFixedString
    | apply stable_rreplicate
    | apply stable_bindRd
    | apply stable_iteRd
    | apply stable_pureRd
    | intro x

/-- ReadArrangement is extension stable. -/
theorem stable_readArrangement : Stable readArrangement := by
  unfold readArrangement
  repeat
    first
    | exact stable_readCount
    | exact stable_readF32
    | exact stable_readF64
    | exact stable_readU8
    | exact stable_readI8
    | exact stable_readU16
    | exact stable_readI16
    | exact stable_readU32
    | exact stable_readI32
    | exact stable_readBendValue
    | exact stable_readFretByte
    | exact stable_readBpms
    | exact stable_readPhrases
    | exact stable_readChords
    | exact stable_readBendData
    | exact stable_readChordNotes
    | exact stable_readVocals
    | exact stable_readSymbolsHeaders
    | exact stable_readSymbolsTextures
    | exact stable_readSymbolDefinitions
    | exact stable_readPhraseIterations
    | exact stable_readPhraseExtraInfos
    | exact stable_readNLinkedDifficulties
    | exact stable_readActions
    | exact stable_readEvents
    | exact stable_readTones
    | exact stable_readDnas
    | exact stable_readSections
    | exact stable_readNote
    | exact stable_readAnchor
    | exact stable_readAnchorExtension
    | exact stable_readFingerprint
    | apply stable_readFixedString
    | apply stable_rreplicate
    | apply stable_bindRd
    | apply stable_iteRd
    | apply stable_pureRd
    | intro x

/-- ReadArrangements is extension stable. -/
theorem stable_readArrangements : Stable readArrangements := by
  unfold readArrangements
  repeat
    first
    | exact stable_readCount
    | exact stable_readF32
    | exact stable_readF64
    | exact stable_readU8
    | exact stable_readI8
    | exact stable_readU16
    | exact stable_readI16
    | exact stable_readU32
    | exact stable_readI32
    | exact stable_readBendValue
    | exact stable_readFretByte
    | exact stable_readBpms
    | exact stable_readPhrases
    | exact stable_readChords
    | exact stable_readBendData
    | exact stable_readChordNotes
    | exact stable_readVocals
    | exact stable_readSymbolsHeaders
    | exact stable_readSymbolsTextures
    | exact stable_readSymbolDefinitions
    | exact stable_readPhraseIterations
    | exact stable_readPhraseExtraInfos
    | exact stable_readNLinkedDifficulties
    | exact stable_readActions
    | exact stable_readEvents
    | exact stable_readTones
    | exact stable_readDnas
    | exact stable_readSections
    | exact stable_readNote
    | exact stable_readAnchor
    | exact stable_readAnchorExtension
    | exact stable_readFingerprint
    | exact stable_readArrangement
    | apply stable_readFixedString
    | apply stable_rreplicate
    | apply stable_bindRd
    | apply stable_iteRd
    | apply stable_pureRd
    | intro x

/-- ReadMetadata is extension stable. -/
theorem stable_readMetadata : Stable readMetadata := by
  unfold readMetadata
  repeat
    first
    | exact stable_readCount
    | exact stable_readF32
    | exact stable_readF64
    | exact stable_readU8
    | exact stable_readI8
    | exact stable_readU16
    | exact stable_readI16
    | exact stable_readU32
    | exact stable_readI32
    | exact stable_readBendValue
    | exact stable_readFretByte
    | exact stable_readBpms
    | exact stable_readPhrases
    | exact stable_readChords
    | exact stable_readBendData
    | exact stable_readChordNotes
    | exact stable_readVocals
    | exact stable_readSymbolsHeaders
    | exact stable_readSymbolsTextures
    | exact stable_readSymbolDefinitions
    | exact stable_readPhraseIterations
    | exact stable_readPhraseExtraInfos
    | exact stable_readNLinkedDifficulties
    | exact stable_readActions
    | exact stable_readEvents
    | exact stable_readTones
    | exact stable_readDnas
    | exact stable_readSections
    | exact stable_readNote
    | exact stable_readAnchor
    | exact stable_readAnchorExtension
    | exact stable_readFingerprint
    | exact stable_readArrangement
    | exact stable_readArrangements
    | apply stable_readFixedString
    | apply stable_rreplicate
    | apply stable_bindRd
    | apply stable_iteRd
    | apply stable_pureRd
    | intro x

/-- The vocals-conditional symbol block is extension stable. -/
theorem stable_readSymbolsBlock (vocals : List Vocal) : Stable (readSymbolsBlock vocals) := by
  unfold readSymbolsBlock
  apply stable_iteRd
  · exact stable_pureRd _
  · exact stable_bindRd stable_readSymbolsHeaders (fun b1 =>
      stable_bindRd stable_readSymbolsTextures (fun b2 =>
        stable_bindRd stable_readSymbolDefinitions (fun b3 => stable_pureRd _)))

/-- The full eighteen-section sequence is extension stable. -/
theorem stable_parseSngSections : Stable parseSngSections := by
  unfold parseSngSections
  refine stable_bindRd stable_readBpms (fun a1 => ?_)
  refine stable_bindRd stable_readPhrases (fun a2 => ?_)
  refine stable_bindRd stable_readChords (fun a3 => ?_)
  refine stable_bindRd stable_readChordNotes (fun a4 => ?_)
  refine stable_bindRd stable_readVocals (fun a5 => ?_)
  refine stable_bindRd (stable_readSymbolsBlock a5) (fun a6 => ?_)
  refine stable_bindRd stable_readPhraseIterations (fun a7 => ?_)
  refine stable_bindRd stable_readPhraseExtraInfos (fun a8 => ?_)
  refine stable_bindRd stable_readNLinkedDifficulties (fun a9 => ?_)
  refine stable_bindRd stable_readActions (fun a10 => ?_)
  refine stable_bindRd stable_readEvents (fun a11 => ?_)
  refine stable_bindRd stable_readTones (fun a12 => ?_)
  refine stable_bindRd stable_readDnas (fun a13 => ?_)
  refine stable_bindRd stable_readSections (fun a14 => ?_)
  refine stable_bindRd stable_readArrangements (fun a15 => ?_)
  refine stable_bindRd stable_readMetadata (fun a16 => ?_)
  exact stable_pureRd _

/-- Claim C2: Parse succeeds only when the cursor ends exactly at the
buffer length; a well-formed buffer extended by stray trailing bytes
fails with TrailingBytes carrying their count (the whole section sequence
re-runs identically on the extended buffer by extension stability); and
every read reaching past the end fails with ReadPastEnd carrying the
offset, the need and the available count. -/
theorem claim_C2_terminal (d extra : List Nat) (hok : ∃ s, sngParse d = .ok s)
    (hx : extra ≠ []) :
    (∃ s, parseSngSections d 0 = .ok (s, d.length)) ∧
    sngParse (d ++ extra) = .error (SngErr.trailingBytes extra.length) ∧
    (∀ (b : List Nat) (p n : Nat), b.length < p + n →
      readBytes n b p = .error (.readPastEnd p n (b.length - p))) := by
  obtain ⟨s, hs⟩ := hok
  unfold sngParse at hs
  split at hs
  · exact absurd hs (by simp)
  next hne =>
    cases hrec : parseSngSections d 0 with
    | error e => rw [hrec] at hs; exact absurd hs (by simp)
    | ok pr =>
      obtain ⟨s2, p⟩ := pr
      rw [hrec] at hs
      dsimp only at hs
      split at hs
      · exact absurd hs (by simp)
      next hp =>
        have hpd : p = d.length := by omega
        subst hpd
        refine ⟨⟨s2, rfl⟩, ?_, ?_⟩
        · have hst := stable_parseSngSections d extra 0 s2 d.length hrec
          unfold sngParse
          rw [if_neg (by simp_all [List.isEmpty_iff])]
          rw [hst]
          dsimp only
          have hxe : extra.length ≠ 0 := fun hc => hx (List.eq_nil_of_length_eq_zero hc)
          rw [if_pos (by rw [List.length_append]; omega)]
          rw [List.length_append]
          have harith : d.length + extra.length - d.length = extra.length := by omega
          rw [harith]
        · intro b p n h
          unfold readBytes
          rw [if_pos h]

set_option maxRecDepth 100000 in
/-- Witness for claim C2: the smallest well-formed SNG buffer plus one
stray byte fails with TrailingBytes 1. -/
theorem claim_C2_witness :
    sngParse (demoSng ++ [7]) = .error (SngErr.trailingBytes 1) := by
  have h := claim_C2_terminal demoSng [7] ⟨_, rfl⟩ (by decide)
  simpa using h.2.1

end Sng


namespace Xmlw

/-- Claim C3 (amended): the averageTempo element carries the overlay
average tempo when the overlay supplies one; the fixed default 120.0
applies only when no overlay is present at all; an overlay without an
average tempo yields 0.0 (value_or(0.0f)), not 120.0. -/
theorem claim_C3_average_tempo :
    ((averageTempoElem none).text = fmt3 120) ∧
    (∀ m : ManifestMetadata, m.average_tempo = none →
      (averageTempoElem (some m)).text = fmt3 0) ∧
    (∀ (m : ManifestMetadata) (t : ℚ), m.average_tempo = some t →
      (averageTempoElem (some m)).text = fmt3 t) := by
  refine ⟨rfl, ?_, ?_⟩
  · intro m hm
    simp [averageTempoElem, averageTempoValue, XmlNode.text, hm]
  · intro m t hm
    simp [averageTempoElem, averageTempoValue, XmlNode.text, hm]

/-- Witness for claim C3: an overlay with average tempo 148.5 emits
148.500. -/
theorem claim_C3_witness :
    tempoManifest.average_tempo = some (mkRat 297 2) ∧
    (averageTempoElem (some tempoManifest)).text = "148.500" := by
  refine ⟨rfl, ?_⟩
  rw [claim_C3_average_tempo.2.2 tempoManifest (mkRat 297 2) rfl]
  decide

/-- Counterexample to claim C3 as stated: an overlay that carries no
average tempo produces 0.000 where the claim demands the 120.0 default. -/
theorem claim_C3_counterexample :
    tempolessManifest.average_tempo = none ∧
    (averageTempoElem (some tempolessManifest)).text ≠ fmt3 120 := by
  refine ⟨rfl, ?_⟩
  decide

/-- Claim C7: with CHORDPANEL set and a valid chord id, the panel
expansion emits one chordNote per string whose template fret is
non-negative, carrying that fret and the string index, and emits nothing
for strings with a negative template fret. -/
theorem claim_C7_chord_panel (chords : List Chord) (chordNotes : List ChordNotes)
    (note : Note) (hpanel : hasFlag note.mask fCHORDPANEL = true)
    (h0 : 0 ≤ note.chord_id) (hlt : note.chord_id.toNat < chords.length) :
    (∀ s : Nat, (chords.getD note.chord_id.toNat default).frets.getD s 0 < 0 →
      writeChordNoteFromTemplate chords chordNotes note s = none) ∧
    (∀ s : Nat, 0 ≤ (chords.getD note.chord_id.toNat default).frets.getD s 0 →
      ∃ nd, writeChordNoteFromTemplate chords chordNotes note s = some nd ∧
        nd.name = "chordNote" ∧
        lookupAttr nd "fret" =
          some (AttrVal.i ((chords.getD note.chord_id.toNat default).frets.getD s 0)) ∧
        lookupAttr nd "string" = some (AttrVal.i s)) ∧
    chordPanelChildren chords chordNotes note =
      (List.range 6).filterMap (writeChordNoteFromTemplate chords chordNotes note) := by
  have hguard : ¬ (note.chord_id < 0 ∨ chords.length ≤ note.chord_id.toNat) :=
    not_or.mpr ⟨not_lt.mpr h0, not_le.mpr hlt⟩
  refine ⟨?_, ?_, ?_⟩
  · intro s hneg
    unfold writeChordNoteFromTemplate
    rw [if_neg hguard, if_pos hneg]
  · intro s hpos
    unfold writeChordNoteFromTemplate
    rw [if_neg hguard, if_neg (not_lt.mpr hpos)]
    dsimp only
    split
    · refine ⟨_, rfl, rfl, ?_, ?_⟩
      · simp [lookupAttr, XmlNode.attrs, List.find?]
      · simp [lookupAttr, XmlNode.attrs, List.find?]
    · refine ⟨_, rfl, rfl, ?_, ?_⟩
      · simp [lookupAttr, XmlNode.attrs, List.find?]
      · simp [lookupAttr, XmlNode.attrs, List.find?]
  · unfold chordPanelChildren
    rw [if_pos hpanel]

set_option maxRecDepth 10000 in
/-- Witness for claim C7 on spec scenario 5: template frets
-1, 0, 2, 2, 2, -1 yield exactly four chordNote children, for strings 1
through 4, carrying frets 0, 2, 2, 2. -/
theorem claim_C7_witness :
    hasFlag panelNote.mask fCHORDPANEL = true ∧
    (chordPanelChildren panelChords [] panelNote).length = 4 ∧
    (chordPanelChildren panelChords [] panelNote).map (fun nd => lookupAttr nd "string") =
      [some (AttrVal.i 1), some (AttrVal.i 2), some (AttrVal.i 3), some (AttrVal.i 4)] ∧
    (chordPanelChildren panelChords [] panelNote).map (fun nd => lookupAttr nd "fret") =
      [some (AttrVal.i 0), some (AttrVal.i 2), some (AttrVal.i 2), some (AttrVal.i 2)] := by
  have h := claim_C7_chord_panel panelChords [] panelNote (by decide) (by decide) (by decide)
  rw [h.2.2]
  refine ⟨by decide, by decide, by decide, by decide⟩

/-- Claim C8 (amended): any output of the unstable sort of the merged
handshape and arpeggio views is a permutation of the merged views with
monotonically non-decreasing start times; the tie order among equal
start times is not guaranteed. -/
theorem claim_C8_handshapes_sorted (arr : Arrangement) (out : List HandShapeView)
    (h : RangesSortSpec (handShapeViews arr) out) :
    out.Pairwise (fun a b => a.start ≤ b.start) ∧
    out.Perm (handShapeViews arr) ∧
    out.length = arr.fingerprints_handshape.length + arr.fingerprints_arpeggio.length := by
  obtain ⟨hperm, hsorted⟩ := h
  refine ⟨hsorted.imp (fun hab => not_lt.mp hab), hperm.symm, ?_⟩
  rw [← hperm.length_eq]
  simp [handShapeViews]

/-- Witness for claim C8: the identity output on tieArrangement
satisfies the sort contract and is non-decreasing. -/
theorem claim_C8_witness :
    ∃ out, RangesSortSpec (handShapeViews tieArrangement) out ∧
      out.Pairwise (fun a b => a.start ≤ b.start) ∧ out.length = 2 := by
  have hspec : RangesSortSpec (handShapeViews tieArrangement) (handShapeViews tieArrangement) :=
    ⟨List.Perm.refl _, by decide⟩
  have h := claim_C8_handshapes_sorted tieArrangement _ hspec
  exact ⟨_, hspec, h.1, by decide⟩

/-- Counterexample to claim C8 as stated: std::ranges::sort is not
stable, so the output placing the arpeggio view before the handshape
view at the shared start time 1 satisfies the sort contract while
breaking the claimed handshape-before-arpeggio tie order. -/
theorem claim_C8_counterexample :
    ∃ out, RangesSortSpec (handShapeViews tieArrangement) out ∧
      ¬ (out.filter (fun v => v.start = 1) =
        (handShapeViews tieArrangement).filter (fun v => v.start = 1)) := by
  refine ⟨[{ chord_id := 1, start := 1, stop := 3 }, { chord_id := 0, start := 1, stop := 2 }],
    ⟨?_, by decide⟩, by decide⟩
  have hv : handShapeViews tieArrangement =
      [{ chord_id := 0, start := 1, stop := 2 }, { chord_id := 1, start := 1, stop := 3 }] := rfl
  rw [hv]
  exact List.Perm.swap _ _ _

end Xmlw

namespace Psarc


/-- Every trimmed manifest line is non-empty. -/
theorem splitTrimLines_ne_nil (l : List Nat) :
    ∀ x ∈ splitTrimLines l, x ≠ [] := by
  intro x hx
  unfold splitTrimLines at hx
  rw [List.mem_filterMap] at hx
  obtain ⟨a, _, ha⟩ := hx
  unfold trimLine at ha
  dsimp only at ha
  split at ha
  · exact absurd ha (by simp)
  next hne =>
    injection ha with h2
    rw [← h2]
    simpa [List.isEmpty_iff] using hne

/-- Entries beyond the manifest lines keep whatever they held. -/
theorem assignTail_getD_of_ge (rest : List FileEntry) :
    ∀ (names : List (List Nat)) (j : Nat), names.length ≤ j →
      (assignTail rest names).getD j default = rest.getD j default := by
  induction rest with
  | nil => intro names j _; cases names <;> rfl
  | cons e r ih =>
    intro names j hj
    cases names with
    | nil => rfl
    | cons n ns =>
      cases j with
      | zero => exact absurd hj (by simp)
      | succ k =>
        simp only [assignTail, List.getD_cons_succ]
        exact ih ns k (by simpa using hj)

/-- A list of unnamed entries reads as unnamed at every index. -/
theorem nameOf_getD_empty (rest : List FileEntry)
    (hr : ∀ e ∈ rest, e.name = ([] : List Nat)) (k : Nat) :
    (rest.getD k default).name = [] := by
  by_cases hk : k < rest.length
  · rw [List.getD_eq_getElem rest default hk]
    exact hr _ (List.getElem_mem hk)
  · rw [List.getD_eq_default rest default (Nat.le_of_not_lt hk)]
    rfl

/-- With unnamed entries and enough of them, name assignment makes the
visible file list exactly the manifest lines. -/
theorem assignTail_filterMap (rest : List FileEntry) :
    ∀ names : List (List Nat),
      (∀ e ∈ rest, e.name = ([] : List Nat)) →
      (∀ nm ∈ names, nm ≠ ([] : List Nat)) →
      names.length ≤ rest.length →
      (assignTail rest names).filterMap
        (fun e => if e.name = [] then none else some e.name) = names := by
  induction rest with
  | nil =>
    intro names _ _ hle
    rw [List.length_nil, Nat.le_zero, List.length_eq_zero] at hle
    subst hle
    rfl
  | cons e r ih =>
    intro names hr hn hle
    cases names with
    | nil =>
      simp only [assignTail]
      rw [List.filterMap_eq_nil_iff]
      intro a ha
      rw [hr a ha]
      rfl
    | cons n ns =>
      simp only [assignTail, List.filterMap_cons]
      rw [if_neg (hn n (by simp))]
      rw [ih ns (fun x hx => hr x (by simp [hx])) (fun x hx => hn x (by simp [hx]))
        (by simpa using hle)]

/-- Claim C9: the file list consists of NamesBlock.bin plus exactly the
manifest lines; when the manifest holds fewer lines than file_count - 1,
the file list is strictly shorter than the file count, the trailing
entries stay unnamed, and ExtractAll visits only indices up to the line
count. -/
theorem claim_C9_unnamed_entries (M : Oracles) (st0 st1 : PsarcState) (m : List Nat)
    (hempty : ∀ e ∈ st0.entries, e.name = ([] : List Nat))
    (hm : extractFileByIndex M st0 0 = .ok m)
    (hok : readManifest M st0 = .ok st1)
    (hlt : (splitTrimLines m).length < st0.entries.length - 1) :
    (getFileList st1).length = (splitTrimLines m).length + 1 ∧
    (getFileList st1).length < st1.entries.length ∧
    (∀ pr ∈ extractAllProcessed M st1, pr.1 ≤ (splitTrimLines m).length) ∧
    (∀ j, (splitTrimLines m).length + 1 ≤ j → j < st1.entries.length →
      (st1.entries.getD j default).name = ([] : List Nat)) := by
  unfold readManifest at hok
  split at hok
  · exact Except.noConfusion hok
  · obtain ⟨m2, hm2, hok2⟩ := exceptBind_ok hok
    rw [hm] at hm2
    injection hm2 with hm3
    subst hm3
    simp only [pure, Except.pure] at hok2
    injection hok2 with h2
    obtain ⟨header0, entries0, z0, file0⟩ := st0
    dsimp only at hempty hlt h2
    cases entries0 with
    | nil => exact absurd hlt (by simp)
    | cons e0 rest =>
      have hrest : ∀ x ∈ rest, x.name = ([] : List Nat) :=
        fun x hx => hempty x (by simp [hx])
      have hnames := splitTrimLines_ne_nil m
      have hle : (splitTrimLines m).length ≤ rest.length := by
        simp only [List.length_cons] at hlt
        omega
      have hfm := assignTail_filterMap rest (splitTrimLines m) hrest hnames hle
      have hjname : ∀ k, (splitTrimLines m).length ≤ k →
          ((assignTail rest (splitTrimLines m)).getD k default).name = [] := by
        intro k hk
        rw [assignTail_getD_of_ge rest (splitTrimLines m) k hk]
        exact nameOf_getD_empty rest hrest k
      have hst1e : st1.entries =
          ({ e0 with name := namesBlockName } : FileEntry) ::
            assignTail rest (splitTrimLines m) := by
        rw [← h2]
        rfl
      have hlen1 : (getFileList st1).length = (splitTrimLines m).length + 1 := by
        unfold getFileList
        rw [hst1e]
        simp only [List.filterMap_cons]
        rw [if_neg (by unfold namesBlockName; simp)]
        rw [hfm]
        simp
      refine ⟨hlen1, ?_, ?_, ?_⟩
      · rw [hlen1, hst1e]
        simp only [List.length_cons, assignTail_length]
        simp only [List.length_cons] at hlt
        omega
      · intro pr hpr
        unfold extractAllProcessed at hpr
        rw [List.mem_filterMap] at hpr
        obtain ⟨i, hir, hif⟩ := hpr
        split at hif
        · exact absurd hif (by simp)
        next hcond =>
          injection hif with h3
          rw [← h3]
          dsimp only
          by_contra hgt
          apply hcond
          rw [hst1e]
          obtain ⟨k, rfl⟩ : ∃ k, i = k + 1 := ⟨i - 1, by omega⟩
          rw [List.getD_cons_succ]
          exact hjname k (by omega)
      · intro j hj1 hj2
        rw [hst1e]
        obtain ⟨k, rfl⟩ : ∃ k, j = k + 1 := ⟨j - 1, by omega⟩
        rw [List.getD_cons_succ]
        exact hjname k (by omega)

set_option maxRecDepth 100000 in
/-- Witness for claim C9 on a three-entry state whose manifest holds a
single line: the file list has two names against three entries. -/
theorem claim_C9_witness :
    ∃ st1, readManifest zeroOracles shortManifestState = .ok st1 ∧
      (getFileList st1).length = 2 ∧ st1.entries.length = 3 := by
  refine ⟨_, rfl, ?_, rfl⟩
  have h := claim_C9_unnamed_entries zeroOracles shortManifestState _ [97]
    (by decide) rfl rfl (by decide)
  rw [h.1]
  decide

end Psarc
